import Mathlib

set_option maxRecDepth 8000

/-!
Shallow embedding of the QC rule engine of the qc-webapp repository
(src/qc_checks.py, driven by src/app.py).  Tables are modelled as a column
list plus row-major cell lists; pandas cells are modelled by `Val`
(text, integral numbers, booleans, datetimes, NaN).  Each check of the
source becomes a Lean function from `Table` to `Table` appending its
`_OK` / `_Remark` columns, mirroring the source row by row.
-/

/-- Cell values of the tabular data model: text, integral numbers (the
numeric cells exercised by the claims are integers; they render without a
decimal point), booleans, datetimes (calendar date plus second-of-day),
and missing values (pandas NaN). -/
inductive Val where
  | vstr (s : String)
  | vnum (n : Int)
  | vbool (b : Bool)
  | vdt (y m d sod : Nat)
  | missing
  deriving DecidableEq

/-- Lowercasing, character by character (kernel-reducible `str.lower()`). -/
def pyLower (s : String) : String := String.mk (s.toList.map Char.toLower)

/-- Characters stripped by Python `str.strip()` (including `\xa0`). -/
def pyIsSpace (c : Char) : Bool :=
  c == ' ' || c == '\t' || c == '\n' || c == '\r' || c == '\x0b' || c == '\x0c' || c == '\xA0'

/-- Python `str.strip()` on a character list. -/
def trimList (cs : List Char) : List Char :=
  ((cs.dropWhile pyIsSpace).reverse.dropWhile pyIsSpace).reverse

/-- Python `str.strip()` (kernel-reducible). -/
def pyTrim (s : String) : String := String.mk (trimList s.toList)

/-- Python `"sep".join(l)` / `"; ".join(l)`. -/
def joinSep (sep : String) : List String → String
  | [] => ""
  | [x] => x
  | x :: y :: xs => x ++ sep ++ joinSep sep (y :: xs)

/-- Python `s.replace("\xa0", "")`. -/
def dropNbsp (s : String) : String := String.mk (s.toList.filter (fun c => c != '\xA0'))

/-- Does the list start with the given pattern of characters? -/
def listStarts : List Char → List Char → Bool
  | [], _ => true
  | _ :: _, [] => false
  | p :: ps, c :: cs => p == c && listStarts ps cs

/-- Substring test on character lists (Python `in` on str). -/
def listHasSub : List Char → List Char → Bool
  | pat, [] => pat.isEmpty
  | pat, c :: cs => listStarts pat (c :: cs) || listHasSub pat cs

/-- Python `sub in s` (case-sensitive substring test). -/
def strHasSub (s sub : String) : Bool := listHasSub sub.toList s.toList

/-- Case-insensitive substring test (pandas `str.contains(..., case=False)`). -/
def strHasSubCI (s sub : String) : Bool := strHasSub (pyLower s) (pyLower sub)

/-- Left-pad a numeral with zeroes (for rendering datetimes). -/
def padNum (width n : Nat) : String :=
  let s := toString n
  if s.length < width then String.mk (List.replicate (width - s.length) '0') ++ s else s

/-- Python `str()` of a datetime cell: `YYYY-MM-DD HH:MM:SS`. -/
def dtRender (y m d sod : Nat) : String :=
  padNum 4 y ++ "-" ++ padNum 2 m ++ "-" ++ padNum 2 d ++ " " ++
    padNum 2 (sod / 3600) ++ ":" ++ padNum 2 (sod % 3600 / 60) ++ ":" ++ padNum 2 (sod % 60)

/-- Python `str(val)` on a cell (`str(nan)` is `"nan"`). -/
def pyStr : Val → String
  | .vstr s => s
  | .vnum n => toString n
  | .vbool b => if b then "True" else "False"
  | .vdt y m d sod => dtRender y m d sod
  | .missing => "nan"

/-- Python `str(val or "")` on a cell: falsy values (`0`, `""`, `False`,
`None`) give `""`, while NaN is truthy and gives `"nan"`. -/
def pyStrOr : Val → String
  | .vstr s => s
  | .vnum n => if n = 0 then "" else toString n
  | .vbool b => if b then "True" else ""
  | .vdt y m d sod => dtRender y m d sod
  | .missing => "nan"

/-- A table: ordered column names and row-major cell values (a DataFrame). -/
structure Table where
  cols : List String
  rows : List (List Val)
  deriving DecidableEq

/-- Index of a column name (exact match), if present. -/
def colIdx (cols : List String) (name : String) : Option Nat :=
  cols.findIdx? (· == name)

/-- Read a row's cell by column name; a missing column or cell reads as NaN
(`Series.get` returns the default / NaN). -/
def rowGet (cols : List String) (r : List Val) (name : String) : Val :=
  match colIdx cols name with
  | some i => r.getD i .missing
  | none => .missing

/-- Assign a whole column (pandas `df[name] = values`): overwrite in place
when the column exists, else append it on the right. -/
def setCol (t : Table) (name : String) (vals : List Val) : Table :=
  match colIdx t.cols name with
  | some i => { cols := t.cols, rows := (t.rows.zip vals).map (fun p => p.1.set i p.2) }
  | none => { cols := t.cols ++ [name], rows := (t.rows.zip vals).map (fun p => p.1 ++ [p.2]) }

/-- Assign a constant column (pandas `df[name] = v`). -/
def setColConst (t : Table) (name : String) (v : Val) : Table :=
  setCol t name (t.rows.map (fun _ => v))

/-- First column whose lowercase form contains the given substring
(the `find_col` helpers of the source). -/
def findColSub (cols : List String) (sub : String) : Option String :=
  cols.find? (fun c => strHasSubCI c sub)

/-- First column whose lowercase form contains all given substrings
(`find_col_containing` of rates_and_ratings_check). -/
def findColSubs (cols : List String) (subs : List String) : Option String :=
  cols.find? (fun c => subs.all (fun sub => strHasSubCI c sub))

/-- Case-insensitive exact column lookup used by `_find_column`:
first candidate whose trimmed lowercase form equals a column's. -/
def findColumn (cols : List String) (cands : List String) : Option String :=
  match cands.find? (fun cand =>
      cols.any (fun c => (pyLower (pyTrim c)) == (pyLower (pyTrim cand)))) with
  | some cand => cols.find? (fun c => (pyLower (pyTrim c)) == (pyLower (pyTrim cand)))
  | none => none

-- ----------------------------- Completeness Check -----------------------------

/-- Candidate header names of completeness_check (verbatim from the source). -/
def completenessCandidates (key : String) : List String :=
  if key == "tv_channel" then ["TV Channel", "TV-Channel", "Channel", "TV Channel "]
  else if key == "channel_id" then ["Channel ID", "ChannelID", "Channel Id"]
  else if key == "type_of_program" then ["Type of Program", "Type of programme", "Type of program"]
  else if key == "match_day" then ["Matchday", "Match Day", "Matchday "]
  else if key == "home_team" then ["Home Team", "HomeTeam", "Home"]
  else if key == "away_team" then ["Away Team", "AwayTeam", "Away"]
  else if key == "aud_estimates" then ["Aud. Estimates [\x27000s]", "Audience Estimates", "Aud Estimates"]
  else if key == "aud_metered" then ["Aud Metered (000s) 3+", "Audience Metered", "Aud. Metered (000s) 3+"]
  else if key == "source" then ["Source", "AudienceSource", "Audience Source", "Audience_Source"]
  else []

/-- The column stored for a lowercase key in the `{col.lower(): col}` dict:
the last column with that lowercase form (later duplicates overwrite). -/
def lowerMapLookup (cols : List String) (key : String) : Option String :=
  (cols.filter (fun c => (pyLower c) == key)).getLast?

/-- Resolve a logical key of completeness_check over the column list:
first candidate present (case-insensitively) wins. -/
def resolveOpts (cols : List String) : List String → Option String
  | [] => none
  | o :: os =>
    match lowerMapLookup cols (pyLower o) with
    | some c => some c
    | none => resolveOpts cols os

/-- completeness_check's colmap, including the `Audience Source` special
case for the `source` key. -/
def completenessColmap (cols : List String) (key : String) : Option String :=
  let base := resolveOpts cols (completenessCandidates key)
  if key == "source" then
    match base with
    | some c => some c
    | none => cols.find? (fun c => strHasSub (pyLower c) "audience source")
  else base

/-- completeness_check's local `is_present`: numbers (including 0) and other
non-NaN non-string cells are present; strings are present unless, after
removing `\xa0` and trimming, they are empty, `nan` or `none`. -/
def cPresent : Val → Bool
  | .missing => false
  | .vnum _ => true
  | .vbool _ => true
  | .vdt _ _ _ _ => true
  | .vstr s =>
    let t := pyTrim (dropNbsp s)
    !(t == "" || (pyLower t) == "nan" || (pyLower t) == "none")

/-- Program types requiring home/away teams ("full match" types). -/
def liveTypes : List String := ["live", "repeat", "delayed"]

/-- Program types with the home/away requirement waived. -/
def relaxedTypes : List String := ["highlights", "magazine", "support", "magazine and support"]

/-- The mandatory-field display pairs of completeness_check. -/
def mandatoryPairs : List (String × String) :=
  [("tv_channel", "TV Channel"), ("channel_id", "Channel ID"),
   ("match_day", "Match Day"), ("source", "Source")]

/-- The mandatory-field entries of the per-row `missing` list. -/
def completenessMandatoryMissing (cols : List String) (r : List Val) : List String :=
  mandatoryPairs.foldr (fun p acc =>
    match completenessColmap cols p.1 with
    | none => (p.2 ++ " (column not found)") :: acc
    | some col => if cPresent (rowGet cols r col) then acc else p.2 :: acc) []

/-- The audience-rule entries of the per-row `missing` list: both columns
unresolved reports the columns as not found; otherwise the entry appears
iff neither resolved audience cell is present. -/
def completenessAudienceMissing (cols : List String) (r : List Val) : List String :=
  let estCol := completenessColmap cols "aud_estimates"
  let metCol := completenessColmap cols "aud_metered"
  let estPresent := match estCol with
    | some c => cPresent (rowGet cols r c)
    | none => false
  let metPresent := match metCol with
    | some c => cPresent (rowGet cols r c)
    | none => false
  if estCol.isNone && metCol.isNone then ["Audience (Estimates/Metered) (columns not found)"]
  else if !(estPresent || metPresent) then ["Audience (Estimates/Metered)"]
  else []

/-- The program type of a row as completeness_check computes it:
`str(row.get(type_col) or "").strip().lower()` when the column resolved,
else `""`. -/
def completenessProgType (cols : List String) (r : List Val) : String :=
  match completenessColmap cols "type_of_program" with
  | some c => pyLower (pyTrim (pyStrOr (rowGet cols r c)))
  | none => ""

/-- The home/away entries of the per-row `missing` list, by program type:
full-match types require both teams (reporting unresolved columns);
relaxed types waive them; all other types require them only when the
columns resolved (an unresolved column is silently skipped). -/
def completenessTeamMissing (cols : List String) (r : List Val) : List String :=
  let progType := completenessProgType cols r
  let homeCol := completenessColmap cols "home_team"
  let awayCol := completenessColmap cols "away_team"
  if liveTypes.contains progType then
    (match homeCol with
     | none => ["Home Team (column not found)"]
     | some c => if cPresent (rowGet cols r c) then [] else ["Home Team"]) ++
    (match awayCol with
     | none => ["Away Team (column not found)"]
     | some c => if cPresent (rowGet cols r c) then [] else ["Away Team"])
  else if relaxedTypes.contains progType then []
  else
    (match homeCol with
     | none => []
     | some c => if cPresent (rowGet cols r c) then [] else ["Home Team"]) ++
    (match awayCol with
     | none => []
     | some c => if cPresent (rowGet cols r c) then [] else ["Away Team"])

/-- The per-row `missing` list of completeness_check, in source order:
mandatory fields, then the audience rule, then home/away by program type. -/
def completenessMissing (cols : List String) (r : List Val) : List String :=
  completenessMandatoryMissing cols r ++ completenessAudienceMissing cols r ++
    completenessTeamMissing cols r

/-- completeness_check: appends `Completeness_OK` and `Completeness_Remark`. -/
def completeness_check (t : Table) : Table :=
  let t1 := setColConst t "Completeness_OK" (.vbool true)
  let t2 := setColConst t1 "Completeness_Remark" (.vstr "")
  let okVals := t.rows.map (fun r => Val.vbool (completenessMissing t.cols r).isEmpty)
  let remarkVals := t.rows.map (fun r =>
    Val.vstr (if (completenessMissing t.cols r).isEmpty then "All key fields present"
      else joinSep "; " (completenessMissing t.cols r)))
  setCol (setCol t2 "Completeness_OK" okVals) "Completeness_Remark" remarkVals

-- ----------------------------- Rates & Ratings Check -----------------------------

/-- rates_and_ratings_check's local `is_present`: NaN is absent; strings are
absent when blank or a none-like token (`nan`, `none`, `na`, `n/a`); every
other value, including the number 0, is present. -/
def rPresent : Val → Bool
  | .missing => false
  | .vstr s =>
    let t := (pyTrim s)
    !(t == "" || (pyLower t) == "nan" || (pyLower t) == "none" || (pyLower t) == "na" ||
      (pyLower t) == "n/a")
  | _ => true

/-- Detected (or fallback) audience-estimates column name of
rates_and_ratings_check. -/
def ratesEstCol (cols : List String) : String :=
  let found := ((findColSubs cols ["aud", "estim"]).orElse (fun _ =>
    findColSubs cols ["aud. estimates"])).orElse (fun _ =>
    findColSubs cols ["aud. estimates", "000"])
  match found with
  | some c => c
  | none => "Aud. Estimates [\x27000s]"

/-- Detected (or fallback) audience-metered column name of
rates_and_ratings_check. -/
def ratesMetCol (cols : List String) : String :=
  let found := ((findColSubs cols ["aud", "meter"]).orElse (fun _ =>
    findColSubs cols ["aud metered"])).orElse (fun _ =>
    findColSubs cols ["aud", "metered", "3+"])
  match found with
  | some c => c
  | none => "Aud Metered (000s) 3+"

/-- Per-row outcome of rates_and_ratings_check from the two presence flags,
mirroring the four disjoint masks of the source (the last one is the
residual `Unknown rating status` branch). -/
def ratesRowResult (e m : Bool) : Bool × String :=
  if !e && !m then (false, "Missing audience ratings (both empty)")
  else if e && m then (false, "Invalid: both metered and estimated present")
  else if e != m then (true, "Valid: one rating source available")
  else (false, "Unknown rating status")

/-- Create a column filled with NaN when it is absent
(`if col not in df.columns: df[col] = pd.NA`). -/
def createColIfMissing (t : Table) (name : String) : Table :=
  if (colIdx t.cols name).isNone then setColConst t name .missing else t

/-- The audience-column creation step of rates_and_ratings_check (both
column names are detected over the original columns, before creation). -/
def ratesCreate (t : Table) : Table :=
  createColIfMissing (createColIfMissing t (ratesEstCol t.cols)) (ratesMetCol t.cols)

/-- rates_and_ratings_check: creates the audience columns when absent
(filled with NaN), then appends `Rates_Ratings_QC_OK` and
`Rates_Ratings_QC_Remark` by the XOR rule. -/
def rates_and_ratings_check (t : Table) : Table :=
  let estCol := ratesEstCol t.cols
  let metCol := ratesMetCol t.cols
  let t2 := ratesCreate t
  let t3 := setColConst t2 "Rates_Ratings_QC_OK" (.vbool true)
  let t4 := setColConst t3 "Rates_Ratings_QC_Remark" (.vstr "")
  let okVals := t4.rows.map (fun r =>
    Val.vbool (ratesRowResult (rPresent (rowGet t4.cols r estCol))
      (rPresent (rowGet t4.cols r metCol))).1)
  let remarkVals := t4.rows.map (fun r =>
    Val.vstr (ratesRowResult (rPresent (rowGet t4.cols r estCol))
      (rPresent (rowGet t4.cols r metCol))).2)
  setCol (setCol t4 "Rates_Ratings_QC_OK" okVals) "Rates_Ratings_QC_Remark" remarkVals

-- ----------------------------- Dates -----------------------------

/-- A calendar date (the `.date()` of a pandas Timestamp). -/
structure Date where
  y : Nat
  m : Nat
  d : Nat
  deriving DecidableEq

/-- Gregorian leap year. -/
def isLeap (y : Nat) : Bool := (y % 4 == 0 && y % 100 != 0) || y % 400 == 0

/-- Days in a month. -/
def daysInMonth (y m : Nat) : Nat :=
  if m == 2 then (if isLeap y then 29 else 28)
  else if m == 4 || m == 6 || m == 9 || m == 11 then 30
  else 31

/-- Calendar validity plus the pandas Timestamp range (whole days of
`Timestamp.min`..`Timestamp.max`; out-of-range dates raise in pandas). -/
def validDate (y m d : Nat) : Bool :=
  1 ≤ m && m ≤ 12 && 1 ≤ d && d ≤ daysInMonth y m &&
    (1677 < y || (y == 1677 && (9 < m || (m == 9 && 22 ≤ d)))) &&
    (y < 2262 || (y == 2262 && (m < 4 || (m == 4 && d ≤ 11))))

/-- Date comparison (lexicographic). -/
def dateLe (a b : Date) : Bool :=
  a.y < b.y || (a.y == b.y && (a.m < b.m || (a.m == b.m && a.d ≤ b.d)))

/-- Value of a digit list read as a base-10 numeral. -/
def digitsToNat (cs : List Char) : Nat :=
  cs.foldl (fun a c => a * 10 + (c.toNat - 48)) 0

/-- Days from the civil epoch 1970-01-01 (Hinnant's algorithm; all
intermediate values are nonnegative for the dates `validDate` accepts). -/
def daysFromCivil (y m d : Nat) : Int :=
  let yy := if m ≤ 2 then y - 1 else y
  let era := yy / 400
  let yoe := yy % 400
  let mp := (m + 9) % 12
  let doy := (153 * mp + 2) / 5 + (d - 1)
  let doe := yoe * 365 + yoe / 4 - yoe / 100 + doy
  (era * 146097 + doe : Int) - 719468

/-- Absolute seconds of a datetime cell (for `total_seconds()` differences). -/
def dtAbsSeconds (y m d sod : Nat) : Int :=
  daysFromCivil y m d * 86400 + sod

/-- Strict `%Y-%m-%d` parsing (pandas `to_datetime(s, format="%Y-%m-%d")`);
`none` models the exception raised on a malformed or out-of-range date. -/
def parseIsoDate (s : String) : Option Date :=
  match s.toList with
  | [a, b, c, d, '-', e, f, '-', g, h] =>
    if [a, b, c, d, e, f, g, h].all Char.isDigit then
      let yv := digitsToNat [a, b, c, d]
      let mv := digitsToNat [e, f]
      let dv := digitsToNat [g, h]
      if validDate yv mv dv then some ⟨yv, mv, dv⟩ else none
    else none
  | _ => none

/-- Does the character list begin with a `\d{4}-\d{2}-\d{2}` match? -/
def isoAt : List Char → Bool
  | a :: b :: c :: d :: s1 :: e :: f :: s2 :: g :: h :: _ =>
    [a, b, c, d, e, f, g, h].all Char.isDigit && s1 == '-' && s2 == '-'
  | _ => false

/-- Fuelled worker for `isoScan` (the fuel is the input length, ample since
each step consumes at least one character). -/
def isoScanF : Nat → List Char → List String
  | 0, _ => []
  | _, [] => []
  | fuel + 1, c :: rest =>
    if isoAt (c :: rest) then
      String.mk ((c :: rest).take 10) :: isoScanF fuel ((c :: rest).drop 10)
    else isoScanF fuel rest

/-- Python `re.findall(r"\d{4}-\d{2}-\d{2}", s)`: non-overlapping matches,
left to right. -/
def isoScan (s : String) : List String := isoScanF s.toList.length s.toList

/-- A date separator of the lenient pattern (`[slash or dash]`). -/
def isSepCh (c : Char) : Bool := c == '/' || c == '-'

/-- Match `\d{1,2}[slash or dash]` at the head: greedy two digits first, then one
(the regex backtracking is deterministic here). Returns matched chars and
the rest. -/
def altA : List Char → Option (List Char × List Char)
  | a :: b :: s :: rest =>
    if a.isDigit && b.isDigit && isSepCh s then some ([a, b, s], rest)
    else if a.isDigit && isSepCh b then some ([a, b], s :: rest)
    else none
  | a :: b :: rest =>
    if a.isDigit && isSepCh b then some ([a, b], rest) else none
  | _ => none

/-- Match `\d{2,4}` at the head, greedily. -/
def altC : List Char → Option (List Char × List Char)
  | a :: b :: c :: d :: rest =>
    if a.isDigit && b.isDigit && c.isDigit && d.isDigit then some ([a, b, c, d], rest)
    else if a.isDigit && b.isDigit && c.isDigit then some ([a, b, c], d :: rest)
    else if a.isDigit && b.isDigit then some ([a, b], c :: d :: rest)
    else none
  | a :: b :: c :: rest =>
    if a.isDigit && b.isDigit && c.isDigit then some ([a, b, c], rest)
    else if a.isDigit && b.isDigit then some ([a, b], c :: rest)
    else none
  | a :: b :: rest =>
    if a.isDigit && b.isDigit then some ([a, b], rest) else none
  | _ => none

/-- Match `\d{1,2}[slash or dash]\d{1,2}[slash or dash]\d{2,4}` at the head. -/
def altAt (cs : List Char) : Option (List Char × List Char) :=
  match altA cs with
  | none => none
  | some (m1, r1) =>
    match altA r1 with
    | none => none
    | some (m2, r2) =>
      match altC r2 with
      | none => none
      | some (m3, r3) => some (m1 ++ m2 ++ m3, r3)

/-- Fuelled worker for `altScan`. -/
def altScanF : Nat → List Char → List String
  | 0, _ => []
  | _, [] => []
  | fuel + 1, c :: rest =>
    match altAt (c :: rest) with
    | some (m, r) => String.mk m :: altScanF fuel r
    | none => altScanF fuel rest

/-- Python `re.findall(r"\d{1,2}[slash or dash]\d{1,2}[slash or dash]\d{2,4}", s)`. -/
def altScan (s : String) : List String := altScanF s.toList.length s.toList

/-- Split a character list on date separators. -/
def splitSeps (cs : List Char) : List (List Char) :=
  match cs.foldr (fun c acc =>
      match acc with
      | cur :: done => if isSepCh c then [] :: cur :: done else (c :: cur) :: done
      | [] => [[c]]) [[]] with
  | parts => parts

/-- Lenient parse of a `slash-or-dash date` match, modelling pandas'
`to_datetime(s, dayfirst=False, errors="coerce")` (dateutil): first field is
the month unless it exceeds 12 and the second does not; a two-digit year is
placed in the window 1969-2068.  No claim depends on its internals. -/
def parseLenientSlash (s : String) : Option Date :=
  match splitSeps s.toList with
  | [fa, fb, fc] =>
    if fa.all Char.isDigit && fb.all Char.isDigit && fc.all Char.isDigit &&
        !fa.isEmpty && !fb.isEmpty && !fc.isEmpty then
      let a := digitsToNat fa
      let b := digitsToNat fb
      let c := digitsToNat fc
      let yv := if c ≥ 100 then c else (if c ≤ 68 then 2000 + c else 1900 + c)
      let mdOpt : Option (Nat × Nat) :=
        if a ≤ 12 then some (a, b) else if b ≤ 12 then some (b, a) else none
      match mdOpt with
      | some (mv, dv) => if validDate yv mv dv then some ⟨yv, mv, dv⟩ else none
      | none => none
    else none
  | _ => none

/-- Python `" ".join(l)`. -/
def joinSpace (l : List String) : String := joinSep " " l

/-- detect_period_from_rosco: the Rosco grid is the raw cell matrix read
with `header=None, dtype=str` and NaN filled with `""`.  Searches for a
row containing "Monitoring Period" (case-insensitively), falls back to a
whole-document ISO-date scan, then to lenient slash-date parsing of the
matched row; `Except.error` models the raised `ValueError` (including the
exception propagating out of a strict date parse). -/
def detect_period_from_rosco (grid : List (List String)) : Except String (Date × Date) :=
  let combined := grid.map joinSpace
  let matchRows := combined.filter (fun s => strHasSubCI s "Monitoring Period")
  let matchRows2 :=
    if matchRows.isEmpty then
      combined.filter (fun s => strHasSubCI s "Monitoring Periods" || strHasSubCI s "Monitoring period")
    else matchRows
  match matchRows2 with
  | [] =>
    let allText := joinSpace combined
    match isoScan allText with
    | f0 :: f1 :: _ =>
      match parseIsoDate f0, parseIsoDate f1 with
      | some d0, some d1 => .ok (d0, d1)
      | _, _ => .error "time data does not match format"
    | _ => .error "Could not find \x27Monitoring Period\x27 text in Rosco file."
  | textRow :: _ =>
    match isoScan textRow with
    | f0 :: f1 :: _ =>
      match parseIsoDate f0, parseIsoDate f1 with
      | some d0, some d1 => .ok (d0, d1)
      | _, _ => .error "time data does not match format"
    | _ =>
      match altScan textRow with
      | g0 :: g1 :: _ =>
        match parseLenientSlash g0, parseLenientSlash g1 with
        | some d0, some d1 => .ok (d0, d1)
        | _, _ => .error "Could not parse monitoring period dates from Rosco file."
      | _ => .error "Could not parse monitoring period dates from Rosco file."

-- ----------------------------- Period Check -----------------------------

/-- Per-cell `pd.to_datetime(value, errors="coerce")`, date part: ISO dates
and `YYYY-MM-DD HH:MM:SS` strings parse; datetime cells pass through;
integer cells read as epoch nanoseconds (1970-01-01); everything else is
NaT.  A bare time string would receive the current date in pandas, which is
outside this model. -/
def parseDateCellLenient (v : Val) : Option Date :=
  match v with
  | .vstr s =>
    match parseIsoDate s with
    | some dd => some dd
    | none =>
      match s.toList with
      | a :: b :: c :: d :: '-' :: e :: f :: '-' :: g :: h :: ' ' :: _ =>
        parseIsoDate (String.mk [a, b, c, d, '-', e, f, '-', g, h])
      | _ => parseLenientSlash s
  | .vdt yv mv dv _ => some ⟨yv, mv, dv⟩
  | .vnum _ => some ⟨1970, 1, 1⟩
  | .vbool _ => none
  | .missing => none

/-- period_check: marks all rows within-period (True, empty remark) when no
column name contains "date"; otherwise parses the first such column into
`Date_checked` and tests inclusion in the closed monitoring interval. -/
def period_check (t : Table) (startD endD : Date) : Table :=
  match t.cols.find? (fun c => strHasSub (pyLower c) "date") with
  | none =>
    let t1 := setColConst t "Within_Period_OK" (.vbool true)
    setColConst t1 "Within_Period_Remark" (.vstr "")
  | some dateCol =>
    let parsed := t.rows.map (fun r => parseDateCellLenient (rowGet t.cols r dateCol))
    let checked := parsed.map (fun p =>
      match p with
      | some dd => Val.vdt dd.y dd.m dd.d 0
      | none => Val.missing)
    let t1 := setCol t "Date_checked" checked
    let okv := parsed.map (fun p =>
      match p with
      | some dd => Val.vbool (dateLe startD dd && dateLe dd endD)
      | none => Val.vbool false)
    let t2 := setCol t1 "Within_Period_OK" okv
    let remv := parsed.map (fun p =>
      match p with
      | some dd => Val.vstr (if dateLe startD dd && dateLe dd endD then "" else "Date outside monitoring period")
      | none => Val.vstr "Date outside monitoring period")
    setCol t2 "Within_Period_Remark" remv

-- ----------------------------- Overlap / Duplicate / Daybreak -----------------------------

/-- Split a character list on a separator predicate. -/
def splitOnPred (p : Char → Bool) (cs : List Char) : List (List Char) :=
  cs.foldr (fun c acc =>
    match acc with
    | cur :: done => if p c then [] :: cur :: done else (c :: cur) :: done
    | [] => [[c]]) [[]]

/-- Strict `%H:%M:%S` parsing into second-of-day (strptime accepts one- or
two-digit fields; the whole string must match).  The resulting pandas
Timestamp sits on 1900-01-01, so only the time of day is retained. -/
def parseHMS (s : String) : Option Nat :=
  match splitOnPred (· == ':') s.toList with
  | [h, mi, sec] =>
    if h.all Char.isDigit && mi.all Char.isDigit && sec.all Char.isDigit &&
        1 ≤ h.length && h.length ≤ 2 && 1 ≤ mi.length && mi.length ≤ 2 &&
        1 ≤ sec.length && sec.length ≤ 2 then
      let hv := digitsToNat h
      let mv := digitsToNat mi
      let sv := digitsToNat sec
      if hv ≤ 23 && mv ≤ 59 && sv ≤ 59 then some (hv * 3600 + mv * 60 + sv) else none
    else none
  | _ => none

/-- pandas `==` between two cells: NaN compares unequal to everything
(including NaN); other values compare structurally. -/
def valEqPd (a b : Val) : Bool :=
  match a, b with
  | .missing, _ => false
  | _, .missing => false
  | x, y => x == y

/-- The auto-detected column names of overlap_duplicate_daybreak_check
(first column containing the substring, with the source's defaults). -/
structure OvCols where
  ch : String
  chId : String
  dateC : String
  startC : String
  endC : String
  pay : String
  comb : String
  deriving DecidableEq

/-- Column detection of overlap_duplicate_daybreak_check. -/
def ovCols (cols : List String) : OvCols :=
  { ch := (findColSub cols "channel").getD "TV Channel"
    chId := (findColSub cols "channel id").getD "Channel ID"
    dateC := ((findColSub cols "date (utc").orElse (fun _ => findColSub cols "date")).getD "Date (UTC/GMT)"
    startC := ((findColSub cols "start (utc").orElse (fun _ => findColSub cols "start")).getD "Start (UTC)"
    endC := ((findColSub cols "end (utc").orElse (fun _ => findColSub cols "end")).getD "End (UTC)"
    pay := (findColSub cols "pay").getD "Pay/Free"
    comb := (findColSub cols "combined").getD "Combined" }

/-- A row of the sorted working view: original position, original cells and
the parsed `_qc_start_dt` / `_qc_end_dt` times (second-of-day). -/
structure WorkRow where
  orig : Nat
  row : List Val
  qStart : Option Nat
  qEnd : Option Nat
  deriving DecidableEq

/-- Build the working rows: times parse from the detected start/end columns
via `astype(str).str.strip()` and strict `%H:%M:%S` (NaT when the column is
absent). -/
def mkWork (t : Table) : List WorkRow :=
  let oc := ovCols t.cols
  t.rows.enum.map (fun p =>
    { orig := p.1
      row := p.2
      qStart :=
        if (colIdx t.cols oc.startC).isSome then
          parseHMS (pyTrim (pyStr (rowGet t.cols p.2 oc.startC)))
        else none
      qEnd :=
        if (colIdx t.cols oc.endC).isSome then
          parseHMS (pyTrim (pyStr (rowGet t.cols p.2 oc.endC)))
        else none })

/-- Rank used to order cells of different kinds (pandas would raise on such
mixed-type sorts; the model fixes an arbitrary order). -/
def valRank : Val → Nat
  | .vnum _ => 0
  | .vbool _ => 1
  | .vdt _ _ _ _ => 2
  | .vstr _ => 3
  | .missing => 4

/-- Three-way comparison of character lists (lexicographic). -/
def cmpChars : List Char → List Char → Ordering
  | [], [] => .eq
  | [], _ :: _ => .lt
  | _ :: _, [] => .gt
  | a :: as, b :: bs => if a < b then .lt else if b < a then .gt else cmpChars as bs

/-- Three-way comparison of naturals. -/
def cmpNat (a b : Nat) : Ordering := if a < b then .lt else if b < a then .gt else .eq

/-- Three-way comparison of integers. -/
def cmpInt (a b : Int) : Ordering := if a < b then .lt else if b < a then .gt else .eq

/-- Three-way comparison of cells for sorting, NaN last
(`na_position="last"`). -/
def valCmp (a b : Val) : Ordering :=
  match a, b with
  | .vnum x, .vnum y => cmpInt x y
  | .vbool x, .vbool y => if x == y then .eq else if x then .gt else .lt
  | .vdt y1 m1 d1 s1, .vdt y2 m2 d2 s2 =>
    match cmpNat y1 y2 with
    | .eq =>
      match cmpNat m1 m2 with
      | .eq =>
        match cmpNat d1 d2 with
        | .eq => cmpNat s1 s2
        | o => o
      | o => o
    | o => o
  | .vstr x, .vstr y => cmpChars x.toList y.toList
  | .missing, .missing => .eq
  | x, y => cmpNat (valRank x) (valRank y)

/-- Lexicographic comparison of sort keys. -/
def keyCmp : List Val → List Val → Ordering
  | x :: xs, y :: ys =>
    match valCmp x y with
    | .eq => keyCmp xs ys
    | o => o
  | _, _ => .eq

/-- The sort key `[channel, date, _qc_start_dt]`, restricted to columns
actually present (the parsed start time is always present as a column). -/
def workKey (cols : List String) (w : WorkRow) : List Val :=
  let oc := ovCols cols
  (if (colIdx cols oc.ch).isSome then [rowGet cols w.row oc.ch] else []) ++
  (if (colIdx cols oc.dateC).isSome then [rowGet cols w.row oc.dateC] else []) ++
  [match w.qStart with
   | some s => Val.vnum s
   | none => Val.missing]

/-- Sort-key order on working rows. -/
def workLe (cols : List String) (a b : WorkRow) : Bool :=
  match keyCmp (workKey cols a) (workKey cols b) with
  | .gt => false
  | _ => true

/-- Insert into a sorted list, after existing equal keys (stability). -/
def insSorted {α : Type} (le : α → α → Bool) (a : α) : List α → List α
  | [] => [a]
  | b :: bs => if le b a then b :: insSorted le a bs else a :: b :: bs

/-- Stable sort (models `sort_values` with a multi-column key, which pandas
performs with a stable lexicographic sort). -/
def stableSort {α : Type} (le : α → α → Bool) (l : List α) : List α :=
  l.foldl (fun acc a => insSorted le a acc) []

/-- OTT detection on the pay/free column: `fillna("")`, stringified,
lowercased, containing `ott`, `internet` or `www`. -/
def isOtt (cols : List String) (w : WorkRow) : Bool :=
  let oc := ovCols cols
  if (colIdx cols oc.pay).isSome then
    let s := pyLower (match rowGet cols w.row oc.pay with
      | .missing => ""
      | v => pyStr v)
    strHasSub s "ott" || strHasSub s "internet" || strHasSub s "www"
  else false

/-- The overlap mask between two consecutive working rows: same channel and
date (NaN never equal), current row not OTT, both parsed times present, and
the current start strictly before the previous end. -/
def overlapPair (cols : List String) (prev curr : WorkRow) : Bool :=
  let oc := ovCols cols
  let sameCh :=
    if (colIdx cols oc.ch).isSome then
      valEqPd (rowGet cols curr.row oc.ch) (rowGet cols prev.row oc.ch)
    else false
  let sameDate :=
    if (colIdx cols oc.dateC).isSome then
      valEqPd (rowGet cols curr.row oc.dateC) (rowGet cols prev.row oc.dateC)
    else false
  sameCh && sameDate && !(isOtt cols curr) &&
    (match curr.qStart, prev.qEnd with
     | some s, some e => s < e
     | _, _ => false)

/-- Map a binary function over adjacent pairs, given the first element. -/
def adjPairs {β : Type} (f : WorkRow → WorkRow → β) : WorkRow → List WorkRow → List β
  | _, [] => []
  | prev, w :: ws => f prev w :: adjPairs f w ws

/-- Overlap flags over the sorted working rows (the first row is never
flagged). -/
def overlapFlags (cols : List String) : List WorkRow → List Bool
  | [] => []
  | w :: ws => false :: adjPairs (overlapPair cols) w ws

/-- Day of the parsed `_qc_*_dt` values: the `%H:%M:%S` format leaves every
Timestamp on 1900-01-01, so the day is constantly 1. -/
def qcDay (_t : Nat) : Nat := 1

/-- Daybreak evaluation between two consecutive working rows: on a matching
channel/channel-id/combined triple a gap outside 0..2 minutes is flagged;
otherwise a change of calendar day between end and next start would be
flagged (never, in this model, since parsed times share one day). -/
def daybreakPair (cols : List String) (prev curr : WorkRow) : Option String :=
  let oc := ovCols cols
  let sameCh :=
    (colIdx cols oc.ch).isSome &&
      valEqPd (rowGet cols curr.row oc.ch) (rowGet cols prev.row oc.ch)
  let sameChId :=
    (colIdx cols oc.chId).isSome &&
      valEqPd (rowGet cols curr.row oc.chId) (rowGet cols prev.row oc.chId)
  let sameComb :=
    (colIdx cols oc.comb).isSome &&
      valEqPd (rowGet cols curr.row oc.comb) (rowGet cols prev.row oc.comb)
  if sameCh && sameChId && sameComb then
    match prev.qEnd, curr.qStart with
    | some e, some s =>
      let gapSec : Int := (s : Int) - (e : Int)
      if gapSec < 0 || gapSec > 120 then some "Time gap too large for continuation" else none
    | _, _ => none
  else
    match prev.qEnd, curr.qStart with
    | some e, some s =>
      if qcDay s != qcDay e then some "Different program continuation across days" else none
    | _, _ => none

/-- Daybreak remarks over the sorted working rows. -/
def daybreakFlags (cols : List String) : List WorkRow → List (Option String)
  | [] => []
  | w :: ws => none :: adjPairs (daybreakPair cols) w ws

/-- The duplicate-detection key columns present in the original table. -/
def dupColsOf (t : Table) : List String :=
  let oc := ovCols t.cols
  [oc.ch, oc.dateC, oc.startC, oc.endC].filter (fun c => (colIdx t.cols c).isSome)

/-- pandas `duplicated(subset=dup_cols, keep=False)` for the row at the
given position: at least two rows share its key tuple (pandas treats NaN
keys as equal). -/
def dupRowFlag (t : Table) (dupCols : List String) (i : Nat) : Bool :=
  let key := dupCols.map (rowGet t.cols (t.rows.getD i []))
  2 ≤ (t.rows.filter (fun r => dupCols.map (rowGet t.cols r) == key)).length

/-- Per-working-row result of the overlap/duplicate/daybreak pass. -/
structure OvResult where
  orig : Nat
  ovFlag : Bool
  dupF : Bool
  dbRemark : Option String
  deriving DecidableEq

/-- overlap_duplicate_daybreak_check: sorts a working view by channel,
date and parsed start time, computes the three flag families, and maps the
results back to original row order, appending the six result columns. -/
def overlap_duplicate_daybreak_check (t : Table) : Table :=
  let work := stableSort (workLe t.cols) (mkWork t)
  let oFlags := overlapFlags t.cols work
  let dFlags := daybreakFlags t.cols work
  let dupCols := dupColsOf t
  let results := (work.zip (oFlags.zip dFlags)).map (fun p =>
    { orig := p.1.orig
      ovFlag := p.2.1
      dupF := if dupCols.isEmpty then false else dupRowFlag t dupCols p.1.orig
      dbRemark := p.2.2 : OvResult })
  let getRes := fun (i : Nat) =>
    (results.find? (fun q => q.orig == i)).getD
      { orig := i, ovFlag := false, dupF := false, dbRemark := none }
  let n := t.rows.length
  let t1 := setCol t "Overlap_OK" ((List.range n).map (fun i => Val.vbool (!(getRes i).ovFlag)))
  let t2 := setCol t1 "Overlap_Remark" ((List.range n).map (fun i =>
    Val.vstr (if (getRes i).ovFlag then "Overlap detected between consecutive events" else "")))
  let t3 := setCol t2 "Duplicate_OK" ((List.range n).map (fun i => Val.vbool (!(getRes i).dupF)))
  let t4 := setCol t3 "Duplicate_Remark" ((List.range n).map (fun i =>
    Val.vstr (if (getRes i).dupF then "Duplicate row found" else "")))
  let t5 := setCol t4 "Daybreak_OK" ((List.range n).map (fun i =>
    Val.vbool (getRes i).dbRemark.isNone))
  setCol t5 "Daybreak_Remark" ((List.range n).map (fun i =>
    Val.vstr ((getRes i).dbRemark.getD "")))

/-- The sorted working view of the overlap check (named for reasoning). -/
def ovWork (t : Table) : List WorkRow := stableSort (workLe t.cols) (mkWork t)

/-- The per-working-row results of the overlap check (named for reasoning;
definitionally the `results` list inside the check). -/
def ovResults (t : Table) : List OvResult :=
  let work := ovWork t
  let oFlags := overlapFlags t.cols work
  let dFlags := daybreakFlags t.cols work
  let dupCols := dupColsOf t
  (work.zip (oFlags.zip dFlags)).map (fun p =>
    { orig := p.1.orig
      ovFlag := p.2.1
      dupF := if dupCols.isEmpty then false else dupRowFlag t dupCols p.1.orig
      dbRemark := p.2.2 : OvResult })

/-- Result lookup by original row position (definitionally the `getRes`
function inside the check). -/
def ovGetRes (t : Table) (i : Nat) : OvResult :=
  ((ovResults t).find? (fun q => q.orig == i)).getD
    { orig := i, ovFlag := false, dupF := false, dbRemark := none }

-- ----------------------------- Program Category Check -----------------------------

/-- Python `str(row.get(col, ""))` with an optional column: the default when
the column was not found, else the stringified cell (NaN gives "nan"). -/
def getStrDefault (cols : List String) (r : List Val) (cOpt : Option String) : String :=
  match cOpt with
  | some c => pyStr (rowGet cols r c)
  | none => ""

/-- Per-cell `pd.to_datetime(x, errors="coerce")` for the time columns of
program_category_check: full `YYYY-MM-DD HH:MM:SS` strings and ISO dates
parse; datetime cells pass through; everything else is NaT (a bare time
string receives the current date in pandas, which is outside this model;
integers parse as epoch nanoseconds). -/
def parseDtCell (v : Val) : Val :=
  match v with
  | .vstr s =>
    match splitOnPred (· == ' ') s.toList with
    | [dpart, tpart] =>
      match parseIsoDate (String.mk dpart), parseHMS (String.mk tpart) with
      | some dd, some sod => .vdt dd.y dd.m dd.d sod
      | _, _ => .missing
    | [dpart] =>
      match parseIsoDate (String.mk dpart) with
      | some dd => .vdt dd.y dd.m dd.d 0
      | none => .missing
    | _ => .missing
  | .vdt y m d sod => .vdt y m d sod
  | .vnum _ => .vdt 1970 1 1 0
  | _ => .missing

/-- Convert a column of a table to datetimes in place. -/
def convertColToDt (t : Table) (c : String) : Table :=
  setCol t c (t.rows.map (fun r => parseDtCell (rowGet t.cols r c)))

/-- The `if c in df_bsr.columns ... elif c in df_fix.columns` conversion
step of program_category_check, threaded over (bsr, fixture). -/
def convertPair (p : Table × Table) (cOpt : Option String) : Table × Table :=
  match cOpt with
  | none => p
  | some c =>
    if (colIdx p.1.cols c).isSome then (convertColToDt p.1 c, p.2)
    else if (colIdx p.2.cols c).isSome then (p.1, convertColToDt p.2 c)
    else p

/-- Absolute seconds of a (converted) datetime cell; non-datetime cells act
as NaT (in the source a non-NaN non-datetime there would raise instead,
which cannot happen after the conversion step). -/
def dtSecOf (v : Val) : Option Int :=
  match v with
  | .vdt y m d sod => some (dtAbsSeconds y m d sod)
  | _ => none

/-- Per-row classification of program_category_check:
(expected, actual, ok, remark). -/
def programCategoryRow (tb tf : Table) (cBsrType cBsrStart cBsrEnd cBsrHome cBsrAway
    cFixStart cFixEnd cFixHome cFixAway : Option String) (r : List Val) :
    String × String × Bool × String :=
  let actual := pyLower (pyTrim (getStrDefault tb.cols r cBsrType))
  let homeT := pyLower (pyTrim (getStrDefault tb.cols r cBsrHome))
  let awayT := pyLower (pyTrim (getStrDefault tb.cols r cBsrAway))
  let bst := match cBsrStart with
    | some c => rowGet tb.cols r c
    | none => Val.missing
  let ben := match cBsrEnd with
    | some c => rowGet tb.cols r c
    | none => Val.missing
  let fixMatch := tf.rows.filter (fun fr =>
    (match cFixHome with
     | some c => pyLower (pyStr (rowGet tf.cols fr c)) == homeT
     | none => false) ||
    (match cFixAway with
     | some c => pyLower (pyStr (rowGet tf.cols fr c)) == awayT
     | none => false))
  match fixMatch with
  | [] => ("unknown", actual, false, "No matching fixture found")
  | fr :: _ =>
    let fst := match cFixStart with
      | some c => rowGet tf.cols fr c
      | none => Val.missing
    let fen := match cFixEnd with
      | some c => rowGet tf.cols fr c
      | none => Val.missing
    match dtSecOf fst, dtSecOf fen, dtSecOf bst, dtSecOf ben with
    | some fs, some fe, some bs, some be =>
      let sd := (bs - fs).natAbs
      let ed := (be - fe).natAbs
      let expected :=
        if sd ≤ 1800 && ed ≤ 1800 then "live"
        else if sd ≤ 4200 || ed ≤ 4200 then "repeat"
        else "highlights"
      if expected == actual then (expected, actual, true, "OK")
      else (expected, actual, false,
        "Expected \x27" ++ expected ++ "\x27, found \x27" ++ actual ++ "\x27")
    | _, _, _, _ => ("unknown", actual, false, "Invalid time values")

/-- program_category_check: when the fixture sheet is absent, fail closed;
otherwise detect columns, convert time columns to datetimes, and classify
each row against the first fixture row matching home or away team. -/
def program_category_check (fixtureOpt : Option Table) (t : Table) : Table :=
  match fixtureOpt with
  | none =>
    let t1 := setColConst t "Program_Category_Expected" (.vstr "unknown")
    let actualVals :=
      if (colIdx t1.cols "Type of Program").isSome then
        t1.rows.map (fun r => rowGet t1.cols r "Type of Program")
      else t1.rows.map (fun _ => Val.vstr "")
    let t2 := setCol t1 "Program_Category_Actual" actualVals
    let t3 := setColConst t2 "Program_Category_OK" (.vbool false)
    setColConst t3 "Program_Category_Remark" (.vstr "Fixture list sheet missing")
  | some fixT =>
    let cBsrType := findColSub t.cols "type"
    let cBsrStart := findColSub t.cols "start"
    let cBsrEnd := findColSub t.cols "end"
    let cBsrHome := findColSub t.cols "home"
    let cBsrAway := findColSub t.cols "away"
    let cFixStart := findColSub fixT.cols "start"
    let cFixEnd := findColSub fixT.cols "end"
    let cFixHome := findColSub fixT.cols "home"
    let cFixAway := findColSub fixT.cols "away"
    let pr := [cBsrStart, cBsrEnd, cFixStart, cFixEnd].foldl convertPair (t, fixT)
    let tb := pr.1
    let tf := pr.2
    let resOf := programCategoryRow tb tf cBsrType cBsrStart cBsrEnd cBsrHome cBsrAway
      cFixStart cFixEnd cFixHome cFixAway
    let t1 := setCol tb "Program_Category_Expected" (tb.rows.map (fun r => Val.vstr (resOf r).1))
    let t2 := setCol t1 "Program_Category_Actual" (tb.rows.map (fun r => Val.vstr (resOf r).2.1))
    let t3 := setCol t2 "Program_Category_OK" (tb.rows.map (fun r => Val.vbool (resOf r).2.2.1))
    setCol t3 "Program_Category_Remark" (tb.rows.map (fun r => Val.vstr (resOf r).2.2.2))

-- ----------------------------- Event / Matchday / Fixture Check -----------------------------

/-- Python `str(row.get(name, ""))` by column name on a table. -/
def getStrByName (cols : List String) (r : List Val) (name : String) : String :=
  if (colIdx cols name).isSome then pyStr (rowGet cols r name) else ""

/-- check_event_matchday_competition: strips column names, normalizes the
fixture sheet (renaming Competition to Event when needed), and verifies the
(event, home, away, matchday) tuple verbatim; empty fields fail first; a
missing fixture sheet passes with an explanatory remark. -/
def check_event_matchday_competition (t : Table) (fixtureOpt : Option Table) : Table :=
  let t1 := setColConst t "Event_Matchday_OK" (.vbool true)
  let t2 := setColConst t1 "Event_Matchday_Remark" (.vstr "OK")
  let t3 : Table := { cols := t2.cols.map pyTrim, rows := t2.rows }
  let fx : Option Table :=
    match fixtureOpt with
    | none => none
    | some f =>
      let f1 : Table := { cols := f.cols.map pyTrim, rows := f.rows }
      let f2 : Table :=
        if (colIdx f1.cols "Event").isNone && (colIdx f1.cols "Competition").isSome then
          { cols := f1.cols.map (fun c => if c == "Competition" then "Event" else c),
            rows := f1.rows }
        else f1
      some (["Event", "Home Team", "Away Team", "Matchday"].foldl (fun acc c =>
        if (colIdx acc.cols c).isSome then
          setCol acc c (acc.rows.map (fun r =>
            Val.vstr (pyLower (pyTrim (pyStr (rowGet acc.cols r c))))))
        else acc) f2)
  let rowRes := fun (r : List Val) =>
    let event := pyLower (pyTrim (getStrByName t3.cols r "Event"))
    let home := pyLower (pyTrim (getStrByName t3.cols r "Home Team"))
    let away := pyLower (pyTrim (getStrByName t3.cols r "Away Team"))
    let matchday := pyLower (pyTrim (getStrByName t3.cols r "Matchday"))
    if event == "" || home == "" || away == "" || matchday == "" then
      (false, "Missing event/home/away/matchday")
    else
      match fx with
      | none => (true, "OK (fixture list missing)")
      | some f =>
        match ["Event", "Home Team", "Away Team", "Matchday"].find?
            (fun c => (colIdx f.cols c).isNone) with
        | some c => (false, "Error: \x27" ++ c ++ "\x27")
        | none =>
          let matched := f.rows.any (fun fr =>
            rowGet f.cols fr "Event" == Val.vstr event &&
            rowGet f.cols fr "Home Team" == Val.vstr home &&
            rowGet f.cols fr "Away Team" == Val.vstr away &&
            rowGet f.cols fr "Matchday" == Val.vstr matchday)
          if matched then (true, "OK") else (false, "No matching fixture found")
  let t4 := setCol t3 "Event_Matchday_OK" (t3.rows.map (fun r => Val.vbool (rowRes r).1))
  setCol t4 "Event_Matchday_Remark" (t3.rows.map (fun r => Val.vstr (rowRes r).2))

-- ----------------------------- Market / Channel Consistency Check -----------------------------

/-- Drop characters up to and including the first occurrence of the target
character, if any. -/
def dropThrough (target : Char) : List Char → Option (List Char)
  | [] => none
  | c :: cs => if c == target then some cs else dropThrough target cs

/-- Fuelled worker removing non-greedy bracketed segments
(`re.sub` with alternation of round and square bracket groups). -/
def removeBrkF : Nat → List Char → List Char
  | 0, cs => cs
  | _, [] => []
  | fuel + 1, c :: cs =>
    if c == '(' then
      match dropThrough ')' cs with
      | some rest => removeBrkF fuel rest
      | none => c :: removeBrkF fuel cs
    else if c == '[' then
      match dropThrough ']' cs with
      | some rest => removeBrkF fuel rest
      | none => c :: removeBrkF fuel cs
    else c :: removeBrkF fuel cs

/-- Remove bracketed text, leftmost shortest matches first. -/
def removeBrackets (cs : List Char) : List Char := removeBrkF cs.length cs

/-- Collapse runs of adjacent spaces to one space. -/
def dedupSpaces : List Char → List Char
  | [] => []
  | [c] => [c]
  | a :: b :: rest =>
    if a == ' ' && b == ' ' then dedupSpaces (b :: rest) else a :: dedupSpaces (b :: rest)

/-- normalize_channel of market_channel_consistency_check: drop bracketed
text, cut at the first dash, keep alphanumerics and whitespace (others
become spaces), collapse whitespace, strip and lowercase; NaN gives "". -/
def normalizeChannel (v : Val) : String :=
  match v with
  | .missing => ""
  | v =>
    let s1 := removeBrackets (pyStr v).toList
    let s2 := s1.takeWhile (fun c => !(c == '-' || c == '–' || c == '—'))
    let s3 := s2.map (fun c => if c.isAlphanum then c else if pyIsSpace c then c else ' ')
    let s4 := dedupSpaces (s3.map (fun c => if pyIsSpace c then ' ' else c))
    pyLower (pyTrim (String.mk s4))

/-- Valid (market, channel) pairs built from the Rosco reference sheet
(absent sheet or missing ChannelCountry/ChannelName columns give no
pairs). -/
def roscoValidPairs (roscoOpt : Option Table) : List (String × String) :=
  match roscoOpt with
  | none => []
  | some rt =>
    if (colIdx rt.cols "ChannelCountry").isSome && (colIdx rt.cols "ChannelName").isSome then
      rt.rows.foldr (fun r acc =>
        let market := pyLower (pyTrim (pyStr (rowGet rt.cols r "ChannelCountry")))
        let channel := normalizeChannel (rowGet rt.cols r "ChannelName")
        if market != "" && channel != "" then (market, channel) :: acc else acc) []
    else []

/-- Fuelled worker for `dedupKeep` (each step consumes at least one
element, so the input length is ample fuel). -/
def dedupKeepF {α : Type} [BEq α] : Nat → List α → List α
  | 0, _ => []
  | _, [] => []
  | fuel + 1, x :: xs => x :: dedupKeepF fuel (xs.filter (fun a => a != x))

/-- Deduplicate keeping first occurrences (pandas `unique`). -/
def dedupKeep {α : Type} [BEq α] (l : List α) : List α := dedupKeepF l.length l

/-- Number of distinct `"a vs b"` fixture keys of the first two columns of
the fixture sheet, if it exists and is at least two columns wide. -/
def spainFixtureCount (fixtureOpt : Option Table) : Option Nat :=
  match fixtureOpt with
  | none => none
  | some f =>
    if 2 ≤ f.cols.length then
      some (dedupKeep (f.rows.map (fun r =>
        pyLower (pyStr (r.getD 0 .missing)) ++ " vs " ++ pyLower (pyStr (r.getD 1 .missing))))).length
    else none

/-- Base per-row result of market_channel_consistency_check:
(market-channel ok, program-description ok, remark before the Spain
append). -/
def marketChannelRow (cols : List String) (validPairs : List (String × String))
    (r : List Val) : Bool × Bool × String :=
  let market := pyLower (pyTrim (getStrByName cols r "Market"))
  let channel := pyTrim (getStrByName cols r "TV-Channel")
  let prog := if (colIdx cols "Program Description").isSome then
      pyTrim (pyStr (rowGet cols r "Program Description"))
    else ""
  let progOK := !(prog == "" || pyLower prog == "-" || pyLower prog == "nan" ||
    pyLower prog == "none")
  let rem1 := if progOK then ([] : List String) else ["Missing program description"]
  let mc :=
    if market == "" || channel == "" then (false, ["Missing market or channel"])
    else if !validPairs.isEmpty then
      if validPairs.contains (market, normalizeChannel (Val.vstr channel)) then (true, [])
      else (false, ["Market+Channel not found in ROSCO"])
    else (true, ([] : List String))
  let remarks := rem1 ++ mc.2
  (mc.1, progOK, if remarks.isEmpty then "OK" else joinSep "; " remarks)

/-- Membership of a row in the Spain live-fixtures slice: Market contains
"spain" and TV-Channel contains "live" (stringified, lowercased). -/
def spainLiveRow (cols : List String) (r : List Val) : Bool :=
  strHasSub (pyLower (pyStr (rowGet cols r "Market"))) "spain" &&
    strHasSub (pyLower (pyStr (rowGet cols r "TV-Channel"))) "live"

/-- market_channel_consistency_check: validates each row's market/channel
pair against the Rosco-derived set and its program description, then, when
a fixture count is available and differs from the number of Spain live
rows, appends a note to those rows' remarks. -/
def market_channel_consistency_check (t : Table) (roscoOpt fixtureOpt : Option Table) : Table :=
  let validPairs := roscoValidPairs roscoOpt
  let expected := spainFixtureCount fixtureOpt
  let t1 := setColConst t "Market_Channel_Consistency_OK" (.vbool true)
  let t2 := setColConst t1 "Program_Description_OK" (.vbool true)
  let t3 := setColConst t2 "Market_Channel_Program_Remark" (.vstr "OK")
  let base := fun (r : List Val) => marketChannelRow t3.cols validPairs r
  let spainActive :=
    match expected with
    | some nExp =>
      nExp != 0 && (colIdx t3.cols "Market").isSome && (colIdx t3.cols "TV-Channel").isSome &&
        ((t3.rows.filter (spainLiveRow t3.cols)).length != nExp)
    | none => false
  let note :=
    match expected with
    | some nExp =>
      "Missing live fixtures (Spain): expected " ++ toString nExp ++ ", found " ++
        toString (t3.rows.filter (spainLiveRow t3.cols)).length
    | none => ""
  let remarkOf := fun (r : List Val) =>
    let b := (base r).2.2
    if spainActive && spainLiveRow t3.cols r then b ++ "; " ++ note else b
  let t4 := setCol t3 "Market_Channel_Consistency_OK"
    (t3.rows.map (fun r => Val.vbool (base r).1))
  let t5 := setCol t4 "Program_Description_OK"
    (t3.rows.map (fun r => Val.vbool (base r).2.1))
  setCol t5 "Market_Channel_Program_Remark" (t3.rows.map (fun r => Val.vstr (remarkOf r)))

-- ----------------------------- Domestic Market Coverage Check -----------------------------

/-- Remove a column (pandas `drop(columns=[name])`). -/
def dropCol (t : Table) (name : String) : Table :=
  match colIdx t.cols name with
  | none => t
  | some i => { cols := t.cols.eraseIdx i, rows := t.rows.map (fun r => r.eraseIdx i) }

/-- The league keywords of domestic_market_check. -/
def laligaKeywords : List String :=
  ["F24 Spain", "LaLiga", "Liga", "Primera", "Segunda", "Liga Española"]

/-- domestic_market_check: degrades to Not Applicable when a required
column is missing; otherwise normalizes the five business columns, flags
Spain/league rows, and requires live or delayed coverage per matchday;
highlights/magazine and non-Spain rows are Not Applicable. -/
def domestic_market_check (t : Table) (_leagueKeyword : String) : Table :=
  let required := ["Market", "Competition", "Event", "Type of program", "Matchday"]
  if required.any (fun c => (colIdx t.cols c).isNone) then
    let t1 := setColConst t "Domestic Market Coverage Check_OK" (.vstr "Not Applicable")
    setColConst t1 "Domestic Market Coverage Remark" (.vstr "Required column missing")
  else
    let tN := required.foldl (fun acc c =>
      setCol acc c (acc.rows.map (fun r => Val.vstr (pyTrim (pyStr (rowGet acc.cols r c)))))) t
    let spainOf := fun (cols : List String) (r : List Val) =>
      strHasSubCI (pyStr (rowGet cols r "Market")) "Spain"
    let laligaOf := fun (cols : List String) (r : List Val) =>
      laligaKeywords.any (fun kw =>
        strHasSub (pyLower (pyStr (rowGet cols r "Competition"))) (pyLower kw)) ||
      laligaKeywords.any (fun kw =>
        strHasSub (pyLower (pyStr (rowGet cols r "Event"))) (pyLower kw))
    let tH1 := setCol tN "is_spain_market" (tN.rows.map (fun r => Val.vbool (spainOf tN.cols r)))
    let tH2 := setCol tH1 "is_laliga" (tH1.rows.map (fun r => Val.vbool (laligaOf tH1.cols r)))
    let t2 := setColConst tH2 "Domestic Market Coverage Check_OK" (.vstr "Not Applicable")
    let t3 := setColConst t2 "Domestic Market Coverage Remark" (.vstr "Not Applicable")
    let isSp := fun (r : List Val) => rowGet t3.cols r "is_spain_market" == Val.vbool true
    let isLl := fun (r : List Val) => rowGet t3.cols r "is_laliga" == Val.vbool true
    let laligaRows := t3.rows.filter (fun r => isLl r && isSp r)
    if laligaRows.isEmpty then t3
    else
      let rowRes := fun (r : List Val) =>
        if !(isSp r) then some ("Not Applicable", "Other market, not applicable")
        else if strHasSubCI (pyStr (rowGet t3.cols r "Type of program")) "Highlight" ||
            strHasSubCI (pyStr (rowGet t3.cols r "Type of program")) "Magazine" then
          some ("Not Applicable", "Not applicable for highlights or magazine programs")
        else if isLl r then
          let md := rowGet t3.cols r "Matchday"
          let mdRows := laligaRows.filter (fun q => rowGet t3.cols q "Matchday" == md)
          let lv := mdRows.any (fun q =>
            strHasSubCI (pyStr (rowGet t3.cols q "Type of program")) "Live")
          let dl := mdRows.any (fun q =>
            strHasSubCI (pyStr (rowGet t3.cols q "Type of program")) "Delayed")
          if !lv && !dl then
            some ("FALSE", "No live/delayed coverage for matchday " ++ pyStr md)
          else if lv && dl then
            some ("TRUE", "Live & delayed coverage present for matchday " ++ pyStr md)
          else some ("TRUE", "Partial coverage for matchday " ++ pyStr md)
        else none
      let okVals := t3.rows.map (fun r =>
        match rowRes r with
        | some p => Val.vstr p.1
        | none => rowGet t3.cols r "Domestic Market Coverage Check_OK")
      let remVals := t3.rows.map (fun r =>
        match rowRes r with
        | some p => Val.vstr p.2
        | none => rowGet t3.cols r "Domestic Market Coverage Remark")
      let t4 := setCol t3 "Domestic Market Coverage Check_OK" okVals
      let t5 := setCol t4 "Domestic Market Coverage Remark" remVals
      dropCol (dropCol t5 "is_spain_market") "is_laliga"

-- ----------------------------- Country & Channel IDs Check -----------------------------

/-- Association-list lookup (insertion-ordered dict). -/
def alLookup (m : List (String × String)) (k : String) : Option String :=
  (m.find? (fun p => p.1 == k)).map (fun p => p.2)

/-- Dict update: overwrite in place, else append. -/
def alSet (m : List (String × String)) (k v : String) : List (String × String) :=
  if (m.find? (fun p => p.1 == k)).isSome then
    m.map (fun p => if p.1 == k then (k, v) else p)
  else m ++ [(k, v)]

/-- Values of the dict, in insertion order. -/
def alValues (m : List (String × String)) : List String := m.map (fun p => p.2)

/-- `str(x).strip() if pd.notna(x) else ""` of country_channel_id_check. -/
def normCell (v : Val) : String :=
  match v with
  | .missing => ""
  | v => pyTrim (pyStr v)

/-- One row step of country_channel_id_check: threads the channel-to-id and
market-to-id maps and emits (ok, remark). -/
def cciStep (cols : List String)
    (st : List (String × String) × List (String × String) × List (Bool × String))
    (r : List Val) :
    List (String × String) × List (String × String) × List (Bool × String) :=
  let chMap := st.1
  let mkMap := st.2.1
  let out := st.2.2
  let channel := normCell (rowGet cols r "TV-Channel")
  let channelId := normCell (rowGet cols r "Channel ID")
  let market := normCell (rowGet cols r "Market")
  let marketId := normCell (rowGet cols r "Market ID")
  let step1 :=
    if channel != "" then
      match alLookup chMap channel with
      | some v =>
        if v != channelId then
          (chMap, ["Channel \x27" ++ channel ++ "\x27 has multiple IDs (" ++ v ++ " vs " ++
            channelId ++ ")"])
        else (alSet chMap channel channelId, [])
      | none => (alSet chMap channel channelId, [])
    else (chMap, ([] : List String))
  let chMap1 := step1.1
  let step2 :=
    if market != "" then
      match alLookup mkMap market with
      | some v =>
        if v != marketId then
          (mkMap, ["Market \x27" ++ market ++ "\x27 has multiple IDs (" ++ v ++ " vs " ++
            marketId ++ ")"])
        else (alSet mkMap market marketId, [])
      | none => (alSet mkMap market marketId, [])
    else (mkMap, ([] : List String))
  let mkMap1 := step2.1
  let rem3 :=
    if channelId != "" && 2 ≤ ((alValues chMap1).filter (fun v => v == channelId)).length then
      ["Channel ID \x27" ++ channelId ++ "\x27 assigned to multiple channels"]
    else []
  let rem4 :=
    if marketId != "" && 2 ≤ ((alValues mkMap1).filter (fun v => v == marketId)).length then
      ["Market ID \x27" ++ marketId ++ "\x27 assigned to multiple markets"]
    else []
  let remarks := step1.2 ++ step2.2 ++ rem3 ++ rem4
  (chMap1, mkMap1,
    out ++ [(remarks.isEmpty, if remarks.isEmpty then "OK" else joinSep "; " remarks)])

/-- country_channel_id_check: first-seen channel/market id mappings; later
conflicting rows are flagged. -/
def country_channel_id_check (t : Table) : Table :=
  let t1 := setColConst t "Market_Channel_ID_OK" (.vbool true)
  let t2 := setColConst t1 "Market_Channel_ID_Remark" (.vstr "")
  let res := (t2.rows.foldl (cciStep t2.cols) ([], [], [])).2.2
  let t3 := setCol t2 "Market_Channel_ID_OK" (res.map (fun p => Val.vbool p.1))
  setCol t3 "Market_Channel_ID_Remark" (res.map (fun p => Val.vstr p.2))

-- ----------------------------- Client / LSTV / OTT Check -----------------------------

/-- Channel IDs linked to more than one distinct Market ID (pandas
`groupby("Channel ID")["Market ID"].nunique()`; NaN keys and NaN values are
excluded). -/
def multiGroupKeys (t : Table) (keyCol valCol : String) : List Val :=
  let keys := dedupKeep ((t.rows.map (fun r => rowGet t.cols r keyCol)).filter
    (fun v => v != Val.missing))
  keys.filter (fun k =>
    2 ≤ (dedupKeep (((t.rows.filter (fun r => rowGet t.cols r keyCol == k)).map
      (fun r => rowGet t.cols r valCol)).filter (fun v => v != Val.missing))).length)

/-- client_lstv_ott_check: flags channel ids mapped to several market ids
(and conversely) and requires the Pay/Free TV cell to contain one of the
expected source keywords. -/
def client_lstv_ott_check (t : Table) : Table :=
  let both := (colIdx t.cols "Market ID").isSome && (colIdx t.cols "Channel ID").isSome
  let multiMarketChannels := if both then multiGroupKeys t "Channel ID" "Market ID" else []
  let multiChannelIds := if both then multiGroupKeys t "Market ID" "Channel ID" else []
  let payCol := (colIdx t.cols "Pay/Free TV").isSome
  let t1 := setColConst t "Client_LSTV_OTT_OK" (.vbool true)
  let t2 := setColConst t1 "Client_LSTV_OTT_Remark" (.vstr "")
  let rowRes := fun (r : List Val) =>
    let rem1 :=
      if multiMarketChannels.contains (rowGet t2.cols r "Channel ID") then
        ["Channel assigned to multiple Market IDs"]
      else []
    let rem2 :=
      if multiChannelIds.contains (rowGet t2.cols r "Market ID") then
        ["Market ID assigned to multiple Channel IDs"]
      else []
    let rem3 :=
      if payCol then
        let cell := rowGet t2.cols r "Pay/Free TV"
        let vs := pyLower (pyTrim (pyStr cell))
        if !(["lstv", "client", "ott"].any (fun src => strHasSub vs src)) then
          ["Missing required source (Client/LSTV/OTT): " ++ pyStr cell]
        else []
      else []
    let remarks := rem1 ++ rem2 ++ rem3
    (remarks.isEmpty, if remarks.isEmpty then "OK" else joinSep "; " remarks)
  let t3 := setCol t2 "Client_LSTV_OTT_OK" (t2.rows.map (fun r => Val.vbool (rowRes r).1))
  setCol t3 "Client_LSTV_OTT_Remark" (t2.rows.map (fun r => Val.vstr (rowRes r).2))

-- ----------------------------- Duplicated Markets Check -----------------------------

/-- `.str.replace('\xa0', ' ')` on a column name. -/
def replNbspSpace (s : String) : String :=
  String.mk (s.toList.map (fun c => if c == '\xA0' then ' ' else c))

/-- Python `repr` of a list of strings (for the raised error message). -/
def pyListRepr (l : List String) : String :=
  "[" ++ joinSep ", " (l.map (fun s => "\x27" ++ s ++ "\x27")) ++ "]"

/-- Set the two duplicated-markets result columns to constants. -/
def dupMkSet (t : Table) (okv remv : String) : Table :=
  let t1 := setColConst t "Duplicated Markets Check_OK" (.vstr okv)
  setColConst t1 "Duplicated Markets Remark" (.vstr remv)

/-- duplicated_market_check (the version in qc_checks.py): reads the Dup
Market list of the league's macro rows and marks each in-league main-table
row FALSE when its market appears there, TRUE otherwise; out-of-league rows
are Not Applicable; a missing macro file, missing columns or non-string
cells degrade to Not Applicable / Error columns. -/
def duplicated_market_check (t : Table) (macOpt : Option Table) (leagueKeyword : String) :
    Table :=
  match macOpt with
  | none => dupMkSet t "Not Applicable" "Macro file missing"
  | some mac0 =>
    let mac : Table := { cols := mac0.cols.map (fun c => replNbspSpace (pyTrim c)),
                         rows := mac0.rows }
    let missingCols := ["Projects", "Dup Market"].filter (fun c => (colIdx mac.cols c).isNone)
    if !missingCols.isEmpty then
      dupMkSet t "Error" ("Missing columns in Macro file: " ++ pyListRepr missingCols)
    else
      let macFiltered := mac.rows.filter (fun r =>
        strHasSubCI (pyStr (rowGet mac.cols r "Projects")) leagueKeyword)
      if macFiltered.isEmpty then
        dupMkSet t "Not Applicable"
          ("No matching league (" ++ leagueKeyword ++ ") found in Macro")
      else
        let dupRaw := dedupKeep ((macFiltered.map (fun r => rowGet mac.cols r "Dup Market")).filter
          (fun v => v != Val.missing))
        if dupRaw.any (fun v =>
            match v with
            | .vstr _ => false
            | _ => true) then
          dupMkSet t "Error" "\x27int\x27 object has no attribute \x27strip\x27"
        else
          let dupClean := dupRaw.map (fun v => pyLower (pyTrim (pyStr v)))
          match ["Market", "Competition", "Event"].find?
              (fun c => (colIdx t.cols c).isNone) with
          | some c => dupMkSet t "Error" ("\x27" ++ c ++ "\x27")
          | none =>
            let t1 := setCol t "Market_clean" (t.rows.map (fun r =>
              Val.vstr (pyLower (pyTrim (pyStr (rowGet t.cols r "Market"))))))
            let t2 := setCol t1 "Competition_clean" (t1.rows.map (fun r =>
              Val.vstr (pyLower (pyTrim (pyStr (rowGet t1.cols r "Competition"))))))
            let t3 := setCol t2 "Event_clean" (t2.rows.map (fun r =>
              Val.vstr (pyLower (pyTrim (pyStr (rowGet t2.cols r "Event"))))))
            let t4 := setColConst t3 "Duplicated Markets Check_OK" (.vstr "Not Applicable")
            let t5 := setColConst t4 "Duplicated Markets Remark" (.vstr "Not applicable")
            let rowRes := fun (r : List Val) =>
              let market := pyStr (rowGet t5.cols r "Market_clean")
              let comp := pyStr (rowGet t5.cols r "Competition_clean")
              let event := pyStr (rowGet t5.cols r "Event_clean")
              if !(strHasSub comp (pyLower leagueKeyword) ||
                  strHasSub event (pyLower leagueKeyword)) then
                ("Not Applicable", "Different competition/event")
              else if dupClean.contains market then
                ("FALSE", "Duplicate market (" ++ market ++ ") found in Macro")
              else
                ("TRUE", "Valid market (" ++ market ++ ") not listed as duplicate")
            let t6 := setCol t5 "Duplicated Markets Check_OK"
              (t5.rows.map (fun r => Val.vstr (rowRes r).1))
            let t7 := setCol t6 "Duplicated Markets Remark"
              (t5.rows.map (fun r => Val.vstr (rowRes r).2))
            dropCol (dropCol (dropCol t7 "Market_clean") "Competition_clean") "Event_clean"

/-- The cleaned duplicate-market list of the macro (named for reasoning;
definitionally the `duplicate_markets_clean` list inside the check, for a
macro table whose headers are already clean). -/
def dupCleanOf (mac : Table) (kw : String) : List String :=
  (dedupKeep (((mac.rows.filter (fun r =>
    strHasSubCI (pyStr (rowGet mac.cols r "Projects")) kw)).map
    (fun r => rowGet mac.cols r "Dup Market")).filter
    (fun v => v != Val.missing))).map (fun v => pyLower (pyTrim (pyStr v)))

/-- Stage tables of duplicated_market_check (named for reasoning;
definitionally the `let` chain inside the check). -/
def dupT1 (t : Table) : Table :=
  setCol t "Market_clean" (t.rows.map (fun r =>
    Val.vstr (pyLower (pyTrim (pyStr (rowGet t.cols r "Market"))))))

def dupT2 (t : Table) : Table :=
  setCol (dupT1 t) "Competition_clean" ((dupT1 t).rows.map (fun r =>
    Val.vstr (pyLower (pyTrim (pyStr (rowGet (dupT1 t).cols r "Competition"))))))

def dupT3 (t : Table) : Table :=
  setCol (dupT2 t) "Event_clean" ((dupT2 t).rows.map (fun r =>
    Val.vstr (pyLower (pyTrim (pyStr (rowGet (dupT2 t).cols r "Event"))))))

def dupT4 (t : Table) : Table :=
  setColConst (dupT3 t) "Duplicated Markets Check_OK" (.vstr "Not Applicable")

def dupT5 (t : Table) : Table :=
  setColConst (dupT4 t) "Duplicated Markets Remark" (.vstr "Not applicable")

/-- The per-row verdict of duplicated_market_check (named for reasoning;
definitionally the `rowRes` function inside the check). -/
def dupRowRes (t : Table) (dupClean : List String) (kw : String) (r : List Val) :
    String × String :=
  let market := pyStr (rowGet (dupT5 t).cols r "Market_clean")
  let comp := pyStr (rowGet (dupT5 t).cols r "Competition_clean")
  let event := pyStr (rowGet (dupT5 t).cols r "Event_clean")
  if !(strHasSub comp (pyLower kw) || strHasSub event (pyLower kw)) then
    ("Not Applicable", "Different competition/event")
  else if dupClean.contains market then
    ("FALSE", "Duplicate market (" ++ market ++ ") found in Macro")
  else
    ("TRUE", "Valid market (" ++ market ++ ") not listed as duplicate")

/-- The strip-and-lowercase normalization the check applies to a cell of
the main table (named for reasoning). -/
def cleanCell (t : Table) (i : Nat) (c : String) : String :=
  pyLower (pyTrim (pyStr (rowGet t.cols (t.rows.getD i []) c)))

/-- The happy-path output shape of duplicated_market_check (named for
reasoning). -/
def dupOut (t : Table) (dupClean : List String) (kw : String) : Table :=
  dropCol (dropCol (dropCol
    (setCol (setCol (dupT5 t) "Duplicated Markets Check_OK"
      ((dupT5 t).rows.map (fun r => Val.vstr (dupRowRes t dupClean kw r).1)))
      "Duplicated Markets Remark"
      ((dupT5 t).rows.map (fun r => Val.vstr (dupRowRes t dupClean kw r).2)))
    "Market_clean") "Competition_clean") "Event_clean"

-- ----------------------------- Full pipeline (run_qc) -----------------------------

/-- The full check sequence of run_qc in app.py, with the workbook-derived
inputs (monitoring period, fixture sheet, Rosco sheet, macro table) as
parameters; note that rates_and_ratings_check runs twice, and the
duplicated-market check runs right before the overlap check. -/
def runQC (startD endD : Date) (fixtureOpt roscoOpt macOpt : Option Table) (t : Table) :
    Table :=
  let t1 := period_check t startD endD
  let t2 := completeness_check t1
  let t3 := program_category_check fixtureOpt t2
  let t4 := check_event_matchday_competition t3 fixtureOpt
  let t5 := market_channel_consistency_check t4 roscoOpt fixtureOpt
  let t6 := domestic_market_check t5 "F24 Spain"
  let t7 := rates_and_ratings_check t6
  let t8 := country_channel_id_check t7
  let t9 := client_lstv_ott_check t8
  let t10 := rates_and_ratings_check t9
  let t11 := duplicated_market_check t10 macOpt "F24 Spain"
  overlap_duplicate_daybreak_check t11

/-- A family of small single-row BSR tables (varying the Matchday cell)
used to analyse the pipeline's behaviour on a second run. -/
def c8Table (v : Val) : Table :=
  Table.mk ["TV Channel", "Channel ID", "Matchday", "Source", "Type of Program"]
    [[.vstr "C1", .vstr "ID1", v, .vstr "client", .vstr "highlights"]]

-- ----------------------------- Spec-modelled duplicated-market interface -----------------------------

/-- A duplication rule of the macro workbook, per the spec's data model:
(league, origin market, origin channel, duplicate market, duplicate
channel). -/
structure MacroRule where
  league : String
  originMarket : String
  originChannel : String
  dupMarket : String
  dupChannel : String
  deriving DecidableEq

/-- Modelled from the spec: the config-driven duplicated-market check
called by run_qc returns, besides the annotated table, "the accumulated set
of all channel identifiers appearing in any duplication rule"; that
function is absent from qc_checks.py (app.py unpacks its two results).
This definition is that second result. -/
def duplicatedChannelsOf (rules : List MacroRule) : List String :=
  rules.foldr (fun r acc => r.originChannel :: r.dupChannel :: acc) []

/-- Modelled from the spec: the overlap check variant called by run_qc
takes the duplicated-channels set and exempts groups whose channel
identifier is in it, marking them "Skipped (channel duplicated across
markets)"; other rows keep the overlap results of the embedded check. -/
def overlap_check_with_duplicates (t : Table) (dupChannels : List String) : Table :=
  let base := overlap_duplicate_daybreak_check t
  let oc := ovCols t.cols
  let skipRow := fun (r : List Val) => dupChannels.contains (pyStr (rowGet t.cols r oc.chId))
  let okVals := (t.rows.zip base.rows).map (fun p =>
    if skipRow p.1 then Val.vbool true else rowGet base.cols p.2 "Overlap_OK")
  let remVals := (t.rows.zip base.rows).map (fun p =>
    if skipRow p.1 then Val.vstr "Skipped (channel duplicated across markets)"
    else rowGet base.cols p.2 "Overlap_Remark")
  setCol (setCol base "Overlap_OK" okVals) "Overlap_Remark" remVals

-- ----------------------------- Spec-side duplicated-market semantics -----------------------------

/-- Following the spec's words (§4.10), for comparison with the source: the
set of distinct events broadcast on a (market, channel) pair among the
league-filtered rows of the main table. -/
def specEventsOn (t : Table) (league market channel : String) : List String :=
  dedupKeep ((t.rows.filter (fun r =>
    (strHasSubCI (pyStr (rowGet t.cols r "Competition")) league ||
      strHasSubCI (pyStr (rowGet t.cols r "Event")) league) &&
    pyLower (pyTrim (pyStr (rowGet t.cols r "Market"))) == pyLower (pyTrim market) &&
    pyLower (pyTrim (pyStr (rowGet t.cols r "TV-Channel"))) == pyLower (pyTrim channel))).map
    (fun r => pyStr (rowGet t.cols r "Event")))

/-- Following the spec's words (§4.10): a duplication rule passes iff the
origin event set is a subset of the duplicate event set. -/
def specRulePasses (t : Table) (league : String) (rule : MacroRule) : Bool :=
  (specEventsOn t league rule.originMarket rule.originChannel).all
    (fun e => (specEventsOn t league rule.dupMarket rule.dupChannel).contains e)

/-- Boolean well-formedness of a table: every row has exactly one cell per
column. -/
def tableWF (t : Table) : Bool :=
  t.rows.all (fun r => r.length == t.cols.length)

-- ===================== Helper lemmas: tables =====================

theorem getD_of_lt {α : Type} (l : List α) (i : Nat) (d : α) (h : i < l.length) :
    l.getD i d = l[i] := by
  simp [List.getD_eq_getElem?_getD, List.getElem?_eq_getElem h]

theorem getD_map_of_lt {α β : Type} (f : α → β) (l : List α) (i : Nat) (d : β)
    (h : i < l.length) : (l.map f).getD i d = f l[i] := by
  have hm : i < (l.map f).length := by simpa
  rw [getD_of_lt _ _ _ hm, List.getElem_map]

theorem zip_getElem {α β : Type} (l₁ : List α) (l₂ : List β) (i : Nat)
    (h₁ : i < l₁.length) (h₂ : i < l₂.length) (h : i < (l₁.zip l₂).length) :
    (l₁.zip l₂)[i] = (l₁[i], l₂[i]) := by
  have h2 : (l₁.zip l₂)[i]? = some (l₁[i], l₂[i]) := by
    rw [List.getElem?_zip_eq_some]
    exact ⟨List.getElem?_eq_getElem h₁, List.getElem?_eq_getElem h₂⟩
  rw [List.getElem?_eq_getElem h] at h2
  exact Option.some.inj h2

theorem colIdx_lt_length {cols : List String} {n : String} {i : Nat}
    (h : colIdx cols n = some i) : i < cols.length := by
  rcases List.findIdx?_eq_some_iff_getElem.mp h with ⟨hlt, -, -⟩
  exact hlt

theorem colIdx_getElem {cols : List String} {n : String} {i : Nat}
    (h : colIdx cols n = some i) : ∃ hi : i < cols.length, cols[i] = n := by
  rcases List.findIdx?_eq_some_iff_getElem.mp h with ⟨hlt, hp, _⟩
  exact ⟨hlt, by simpa using hp⟩

theorem rows_getD_setCol (t : Table) (n : String) (vs : List Val) (i : Nat)
    (hlen : vs.length = t.rows.length) (hi : i < t.rows.length) :
    (setCol t n vs).rows.getD i [] =
      (match colIdx t.cols n with
       | some j => (t.rows.getD i []).set j (vs.getD i .missing)
       | none => t.rows.getD i [] ++ [vs.getD i .missing]) := by
  have hvi : i < vs.length := by omega
  have hz : i < (t.rows.zip vs).length := by
    simp [List.length_zip]
    omega
  cases hc : colIdx t.cols n with
  | some j =>
    simp only [setCol, hc]
    rw [getD_map_of_lt _ _ _ _ hz, zip_getElem _ _ _ hi hvi hz,
      getD_of_lt _ _ _ hi, getD_of_lt _ _ _ hvi]
  | none =>
    simp only [setCol, hc]
    rw [getD_map_of_lt _ _ _ _ hz, zip_getElem _ _ _ hi hvi hz,
      getD_of_lt _ _ _ hi, getD_of_lt _ _ _ hvi]

theorem setCol_rows_length (t : Table) (n : String) (vs : List Val)
    (h : vs.length = t.rows.length) :
    (setCol t n vs).rows.length = t.rows.length := by
  cases hc : colIdx t.cols n <;>
    simp [setCol, hc, List.length_zip, h]

theorem tableWF_rowlen {t : Table} (hwf : tableWF t = true) {i : Nat}
    (hi : i < t.rows.length) : (t.rows.getD i []).length = t.cols.length := by
  rw [getD_of_lt _ _ _ hi]
  have := List.all_eq_true.mp hwf _ (List.getElem_mem hi)
  exact beq_iff_eq.mp this

theorem tableWF_setCol {t : Table} {n : String} {vs : List Val}
    (hwf : tableWF t = true) (_h : vs.length = t.rows.length) :
    tableWF (setCol t n vs) = true := by
  cases hc : colIdx t.cols n with
  | some j =>
    simp only [setCol, hc, tableWF, List.all_eq_true] at hwf ⊢
    intro r hr
    rcases List.mem_map.mp hr with ⟨p, hp, rfl⟩
    have hmem := List.of_mem_zip hp
    simpa [List.length_set] using hwf p.1 hmem.1
  | none =>
    simp only [setCol, hc, tableWF, List.all_eq_true] at hwf ⊢
    intro r hr
    rcases List.mem_map.mp hr with ⟨p, hp, rfl⟩
    have hmem := List.of_mem_zip hp
    have := hwf p.1 hmem.1
    simp at this ⊢
    omega

theorem colIdx_setCol_self (t : Table) (n : String) (vs : List Val) :
    colIdx (setCol t n vs).cols n =
      (match colIdx t.cols n with
       | some j => some j
       | none => some t.cols.length) := by
  cases hc : colIdx t.cols n with
  | some j => simp only [setCol, hc]
  | none =>
    simp only [setCol, hc]
    unfold colIdx at hc ⊢
    rw [List.findIdx?_append, hc]
    simp

theorem rowGet_setCol_self {t : Table} {n : String} {vs : List Val} {i : Nat}
    (hwf : tableWF t = true) (hlen : vs.length = t.rows.length) (hi : i < t.rows.length) :
    rowGet (setCol t n vs).cols ((setCol t n vs).rows.getD i []) n = vs.getD i .missing := by
  unfold rowGet
  rw [colIdx_setCol_self, rows_getD_setCol t n vs i hlen hi]
  cases hc : colIdx t.cols n with
  | some j =>
    simp only
    have hj : j < (t.rows.getD i []).length := by
      rw [tableWF_rowlen hwf hi]
      exact colIdx_lt_length hc
    rw [getD_of_lt _ _ _ (by simpa [List.length_set] using hj)]
    rw [List.getElem_set_self]
  | none =>
    simp only
    have hlenr : (t.rows.getD i []).length = t.cols.length := tableWF_rowlen hwf hi
    have hb : t.cols.length < (t.rows.getD i [] ++ [vs.getD i Val.missing]).length := by
      rw [List.length_append, hlenr]
      simp
    rw [getD_of_lt _ _ _ hb]
    rw [List.getElem_concat_length _ _ _ hlenr.symm]

theorem colIdx_setCol_cols (t : Table) (n n2 : String) (vs : List Val) (hne : n2 ≠ n) :
    colIdx (setCol t n vs).cols n2 = colIdx t.cols n2 := by
  cases hc : colIdx t.cols n with
  | some j => simp only [setCol, hc]
  | none =>
    simp only [setCol, hc]
    unfold colIdx
    rw [List.findIdx?_append]
    have hnone : List.findIdx? (fun x => x == n2) [n] = none := by
      simp [List.findIdx?]
      exact fun h => absurd h.symm hne
    cases hc2 : List.findIdx? (fun x => x == n2) t.cols <;> simp [hnone, hc2]

theorem rowGet_setCol_ne {t : Table} {n n2 : String} {vs : List Val} {i : Nat}
    (hwf : tableWF t = true) (hlen : vs.length = t.rows.length) (hi : i < t.rows.length)
    (hne : n2 ≠ n) :
    rowGet (setCol t n vs).cols ((setCol t n vs).rows.getD i []) n2 =
      rowGet t.cols (t.rows.getD i []) n2 := by
  unfold rowGet
  rw [colIdx_setCol_cols t n n2 vs hne, rows_getD_setCol t n vs i hlen hi]
  cases hc2 : colIdx t.cols n2 with
  | none => simp
  | some j2 =>
    have hj2 : j2 < (t.rows.getD i []).length := by
      rw [tableWF_rowlen hwf hi]
      exact colIdx_lt_length hc2
    cases hc : colIdx t.cols n with
    | some j =>
      simp only
      have hjj : j ≠ j2 := by
        intro hEq
        rcases List.findIdx?_eq_some_iff_getElem.mp hc with ⟨hl1, hp1, _⟩
        rcases List.findIdx?_eq_some_iff_getElem.mp hc2 with ⟨hl2, hp2, _⟩
        subst hEq
        have e1 : t.cols[j] = n := by simpa using hp1
        have e2 : t.cols[j] = n2 := by simpa using hp2
        exact hne (e2 ▸ e1 ▸ rfl)
      rw [getD_of_lt _ _ _ (by simpa [List.length_set] using hj2), getD_of_lt _ _ _ hj2]
      rw [List.getElem_set_ne (by omega)]
    | none =>
      simp only
      have hb : j2 < (t.rows.getD i [] ++ [vs.getD i Val.missing]).length := by
        rw [List.length_append]
        omega
      rw [getD_of_lt _ _ _ hb, getD_of_lt _ _ _ hj2]
      rw [List.getElem_append_left hj2]

theorem setColConst_rows_length (t : Table) (n : String) (v : Val) :
    (setColConst t n v).rows.length = t.rows.length := by
  unfold setColConst
  exact setCol_rows_length _ _ _ (by simp)

theorem tableWF_setColConst {t : Table} (n : String) (v : Val)
    (hwf : tableWF t = true) : tableWF (setColConst t n v) = true := by
  unfold setColConst
  exact tableWF_setCol hwf (by simp)

theorem rowGet_setColConst_self {t : Table} {n : String} {v : Val} {i : Nat}
    (hwf : tableWF t = true) (hi : i < t.rows.length) :
    rowGet (setColConst t n v).cols ((setColConst t n v).rows.getD i []) n = v := by
  unfold setColConst
  rw [rowGet_setCol_self hwf (by simp) hi]
  rw [getD_map_of_lt _ _ _ _ hi]

theorem rowGet_setColConst_ne {t : Table} {n n2 : String} {v : Val} {i : Nat}
    (hwf : tableWF t = true) (hi : i < t.rows.length) (hne : n2 ≠ n) :
    rowGet (setColConst t n v).cols ((setColConst t n v).rows.getD i []) n2 =
      rowGet t.cols (t.rows.getD i []) n2 := by
  unfold setColConst
  exact rowGet_setCol_ne hwf (by simp) hi hne

-- ===================== Helper lemmas: check outputs =====================

theorem findColSubs_spec {cols : List String} {subs : List String} {c : String}
    (h : findColSubs cols subs = some c) : ∀ sub ∈ subs, strHasSubCI c sub = true := by
  unfold findColSubs at h
  have hp := List.find?_some h
  simpa [List.all_eq_true] using hp

theorem listStarts_append_left {p q cs : List Char} (h : listStarts (p ++ q) cs = true) :
    listStarts p cs = true := by
  induction p generalizing cs with
  | nil => simp [listStarts]
  | cons a as ih =>
    cases cs with
    | nil => simp [listStarts] at h
    | cons b bs =>
      simp [listStarts] at h ⊢
      exact ⟨h.1, ih h.2⟩

theorem listHasSub_append_left {p q cs : List Char} (h : listHasSub (p ++ q) cs = true) :
    listHasSub p cs = true := by
  induction cs with
  | nil =>
    simp [listHasSub] at h ⊢
    exact h.1
  | cons b bs ih =>
    simp only [listHasSub, Bool.or_eq_true] at h ⊢
    rcases h with h | h
    · exact Or.inl (listStarts_append_left h)
    · exact Or.inr (ih h)

theorem strHasSubCI_of_append {s sub big : String} (tail : List Char)
    (hsplit : (pyLower big).toList = (pyLower sub).toList ++ tail)
    (h : strHasSubCI s big = true) : strHasSubCI s sub = true := by
  unfold strHasSubCI strHasSub at h ⊢
  rw [hsplit] at h
  exact listHasSub_append_left h

theorem ratesEstCol_props (cols : List String) :
    strHasSubCI (ratesEstCol cols) "estim" = true ∨
    strHasSubCI (ratesEstCol cols) "aud. estimates" = true ∨
    ratesEstCol cols = "Aud. Estimates [\x27000s]" := by
  unfold ratesEstCol
  cases h1 : findColSubs cols ["aud", "estim"] with
  | some c =>
    simp only [h1, Option.orElse]
    exact Or.inl (findColSubs_spec h1 "estim" (by simp))
  | none =>
    cases h2 : findColSubs cols ["aud. estimates"] with
    | some c =>
      simp only [h1, h2, Option.orElse]
      exact Or.inr (Or.inl (findColSubs_spec h2 "aud. estimates" (by simp)))
    | none =>
      cases h3 : findColSubs cols ["aud. estimates", "000"] with
      | some c =>
        simp only [h1, h2, h3, Option.orElse]
        exact Or.inr (Or.inl (findColSubs_spec h3 "aud. estimates" (by simp)))
      | none =>
        simp only [h1, h2, h3, Option.orElse]
        exact Or.inr (Or.inr trivial)

theorem ratesMetCol_props (cols : List String) :
    strHasSubCI (ratesMetCol cols) "meter" = true ∨
    strHasSubCI (ratesMetCol cols) "aud metered" = true ∨
    ratesMetCol cols = "Aud Metered (000s) 3+" := by
  unfold ratesMetCol
  cases h1 : findColSubs cols ["aud", "meter"] with
  | some c =>
    simp only [h1, Option.orElse]
    exact Or.inl (findColSubs_spec h1 "meter" (by simp))
  | none =>
    cases h2 : findColSubs cols ["aud metered"] with
    | some c =>
      simp only [h1, h2, Option.orElse]
      exact Or.inr (Or.inl (findColSubs_spec h2 "aud metered" (by simp)))
    | none =>
      cases h3 : findColSubs cols ["aud", "metered", "3+"] with
      | some c =>
        simp only [h1, h2, h3, Option.orElse]
        have hmd := findColSubs_spec h3 "metered" (by simp)
        exact Or.inl (strHasSubCI_of_append ['e', 'd'] (by decide) hmd)
      | none =>
        simp only [h1, h2, h3, Option.orElse]
        exact Or.inr (Or.inr trivial)

theorem createColIfMissing_rows_length (t : Table) (name : String) :
    (createColIfMissing t name).rows.length = t.rows.length := by
  unfold createColIfMissing
  cases hc : colIdx t.cols name <;> simp [hc, setColConst_rows_length]

theorem tableWF_createColIfMissing (t : Table) (name : String) (hwf : tableWF t = true) :
    tableWF (createColIfMissing t name) = true := by
  unfold createColIfMissing
  cases hc : colIdx t.cols name <;> simp [hc, hwf, tableWF_setColConst _ _ hwf]

theorem rowGet_createColIfMissing (t : Table) (name : String) {i : Nat}
    (hwf : tableWF t = true) (hi : i < t.rows.length) (target : String) :
    rowGet (createColIfMissing t name).cols ((createColIfMissing t name).rows.getD i [])
      target = rowGet t.cols (t.rows.getD i []) target := by
  unfold createColIfMissing
  cases hc : colIdx t.cols name with
  | some j => simp [hc]
  | none =>
    simp only [hc, Option.isNone_none, if_true]
    by_cases ht : target = name
    · subst ht
      rw [rowGet_setColConst_self hwf hi]
      unfold rowGet
      rw [hc]
    · exact rowGet_setColConst_ne hwf hi ht

theorem ratesCreate_rows_length (t : Table) :
    (ratesCreate t).rows.length = t.rows.length := by
  unfold ratesCreate
  rw [createColIfMissing_rows_length, createColIfMissing_rows_length]

theorem tableWF_ratesCreate (t : Table) (hwf : tableWF t = true) :
    tableWF (ratesCreate t) = true := by
  unfold ratesCreate
  exact tableWF_createColIfMissing _ _ (tableWF_createColIfMissing _ _ hwf)

theorem rowGet_ratesCreate (t : Table) {i : Nat} (hwf : tableWF t = true)
    (hi : i < t.rows.length) (target : String) :
    rowGet (ratesCreate t).cols ((ratesCreate t).rows.getD i []) target =
      rowGet t.cols (t.rows.getD i []) target := by
  unfold ratesCreate
  rw [rowGet_createColIfMissing _ _ (tableWF_createColIfMissing _ _ hwf)
    (by rw [createColIfMissing_rows_length]; exact hi) target]
  exact rowGet_createColIfMissing _ _ hwf hi target

theorem ratesEstCol_ne_qc (cols : List String) :
    ratesEstCol cols ≠ "Rates_Ratings_QC_OK" ∧ ratesEstCol cols ≠ "Rates_Ratings_QC_Remark" := by
  rcases ratesEstCol_props cols with h | h | h
  · constructor
    · intro hEq
      rw [hEq] at h
      exact absurd h (by decide)
    · intro hEq
      rw [hEq] at h
      exact absurd h (by decide)
  · constructor
    · intro hEq
      rw [hEq] at h
      exact absurd h (by decide)
    · intro hEq
      rw [hEq] at h
      exact absurd h (by decide)
  · rw [h]
    exact ⟨by decide, by decide⟩

theorem ratesMetCol_ne_qc (cols : List String) :
    ratesMetCol cols ≠ "Rates_Ratings_QC_OK" ∧ ratesMetCol cols ≠ "Rates_Ratings_QC_Remark" := by
  rcases ratesMetCol_props cols with h | h | h
  · constructor
    · intro hEq
      rw [hEq] at h
      exact absurd h (by decide)
    · intro hEq
      rw [hEq] at h
      exact absurd h (by decide)
  · constructor
    · intro hEq
      rw [hEq] at h
      exact absurd h (by decide)
    · intro hEq
      rw [hEq] at h
      exact absurd h (by decide)
  · rw [h]
    exact ⟨by decide, by decide⟩



theorem setCol2_out (base : Table) (n1 n2 : String) (vs1 vs2 : List Val)
    (hwf : tableWF base = true) (i : Nat) (hi : i < base.rows.length)
    (h1 : vs1.length = base.rows.length) (h2 : vs2.length = base.rows.length) (hne : n2 ≠ n1) :
    rowGet (setCol (setCol base n1 vs1) n2 vs2).cols
      ((setCol (setCol base n1 vs1) n2 vs2).rows.getD i []) n1 = vs1.getD i .missing ∧
    rowGet (setCol (setCol base n1 vs1) n2 vs2).cols
      ((setCol (setCol base n1 vs1) n2 vs2).rows.getD i []) n2 = vs2.getD i .missing := by
  have hw1 : tableWF (setCol base n1 vs1) = true := tableWF_setCol hwf h1
  have hl1 : (setCol base n1 vs1).rows.length = base.rows.length := setCol_rows_length _ _ _ h1
  have hi1 : i < (setCol base n1 vs1).rows.length := by
    rw [hl1]
    exact hi
  have h2b : vs2.length = (setCol base n1 vs1).rows.length := by
    rw [hl1]
    exact h2
  constructor
  · rw [rowGet_setCol_ne hw1 h2b hi1 (Ne.symm hne)]
    exact rowGet_setCol_self hwf h1 hi
  · exact rowGet_setCol_self hw1 h2b hi1

theorem setCol2_map_out (base : Table) (n1 n2 : String) (f g : List Val → Val)
    (hwf : tableWF base = true) (i : Nat) (hi : i < base.rows.length) (hne : n2 ≠ n1) :
    rowGet (setCol (setCol base n1 (base.rows.map f)) n2 (base.rows.map g)).cols
      ((setCol (setCol base n1 (base.rows.map f)) n2 (base.rows.map g)).rows.getD i []) n1 =
      f (base.rows.getD i []) ∧
    rowGet (setCol (setCol base n1 (base.rows.map f)) n2 (base.rows.map g)).cols
      ((setCol (setCol base n1 (base.rows.map f)) n2 (base.rows.map g)).rows.getD i []) n2 =
      g (base.rows.getD i []) := by
  have h1 : (base.rows.map f).length = base.rows.length := by simp
  have h2 : (base.rows.map g).length = base.rows.length := by simp
  have hout := setCol2_out base n1 n2 _ _ hwf i hi h1 h2 hne
  rw [hout.1, hout.2, getD_map_of_lt _ _ _ _ hi, getD_map_of_lt _ _ _ _ hi,
    ← getD_of_lt _ _ _ hi]
  exact ⟨rfl, rfl⟩

theorem rates_out (t : Table) (hwf : tableWF t = true) (i : Nat) (hi : i < t.rows.length) :
    rowGet (rates_and_ratings_check t).cols ((rates_and_ratings_check t).rows.getD i [])
        "Rates_Ratings_QC_OK" =
      .vbool (ratesRowResult
        (rPresent (rowGet t.cols (t.rows.getD i []) (ratesEstCol t.cols)))
        (rPresent (rowGet t.cols (t.rows.getD i []) (ratesMetCol t.cols)))).1 ∧
    rowGet (rates_and_ratings_check t).cols ((rates_and_ratings_check t).rows.getD i [])
        "Rates_Ratings_QC_Remark" =
      .vstr (ratesRowResult
        (rPresent (rowGet t.cols (t.rows.getD i []) (ratesEstCol t.cols)))
        (rPresent (rowGet t.cols (t.rows.getD i []) (ratesMetCol t.cols)))).2 := by
  have h2l : (ratesCreate t).rows.length = t.rows.length := ratesCreate_rows_length t
  have h2w : tableWF (ratesCreate t) = true := tableWF_ratesCreate t hwf
  have h3w : tableWF (setColConst (ratesCreate t) "Rates_Ratings_QC_OK" (Val.vbool true)) = true :=
    tableWF_setColConst _ _ h2w
  have h3l : (setColConst (ratesCreate t) "Rates_Ratings_QC_OK" (Val.vbool true)).rows.length
      = t.rows.length := by
    rw [setColConst_rows_length, h2l]
  have h4w : tableWF (setColConst (setColConst (ratesCreate t) "Rates_Ratings_QC_OK"
      (Val.vbool true)) "Rates_Ratings_QC_Remark" (Val.vstr "")) = true :=
    tableWF_setColConst _ _ h3w
  have h4l : (setColConst (setColConst (ratesCreate t) "Rates_Ratings_QC_OK" (Val.vbool true))
      "Rates_Ratings_QC_Remark" (Val.vstr "")).rows.length = t.rows.length := by
    rw [setColConst_rows_length, h3l]
  have hi4 : i < (setColConst (setColConst (ratesCreate t) "Rates_Ratings_QC_OK"
      (Val.vbool true)) "Rates_Ratings_QC_Remark" (Val.vstr "")).rows.length := by
    rw [h4l]
    exact hi
  have hinv : ∀ target : String, target ≠ "Rates_Ratings_QC_OK" →
      target ≠ "Rates_Ratings_QC_Remark" →
      rowGet (setColConst (setColConst (ratesCreate t) "Rates_Ratings_QC_OK" (Val.vbool true))
          "Rates_Ratings_QC_Remark" (Val.vstr "")).cols
        ((setColConst (setColConst (ratesCreate t) "Rates_Ratings_QC_OK" (Val.vbool true))
          "Rates_Ratings_QC_Remark" (Val.vstr "")).rows.getD i []) target =
        rowGet t.cols (t.rows.getD i []) target := by
    intro target hne1 hne2
    rw [rowGet_setColConst_ne h3w (by rw [h3l]; exact hi) hne2]
    rw [rowGet_setColConst_ne h2w (by rw [h2l]; exact hi) hne1]
    exact rowGet_ratesCreate t hwf hi target
  unfold rates_and_ratings_check
  simp only
  constructor
  · rw [(setCol2_map_out _ _ _ _ _ h4w i hi4 (by decide)).1]
    rw [hinv _ (ratesEstCol_ne_qc t.cols).1 (ratesEstCol_ne_qc t.cols).2,
      hinv _ (ratesMetCol_ne_qc t.cols).1 (ratesMetCol_ne_qc t.cols).2]
  · rw [(setCol2_map_out _ _ _ _ _ h4w i hi4 (by decide)).2]
    rw [hinv _ (ratesEstCol_ne_qc t.cols).1 (ratesEstCol_ne_qc t.cols).2,
      hinv _ (ratesMetCol_ne_qc t.cols).1 (ratesMetCol_ne_qc t.cols).2]

theorem completeness_out (t : Table) (hwf : tableWF t = true) (i : Nat)
    (hi : i < t.rows.length) :
    rowGet (completeness_check t).cols ((completeness_check t).rows.getD i [])
        "Completeness_OK" =
      .vbool (completenessMissing t.cols (t.rows.getD i [])).isEmpty ∧
    rowGet (completeness_check t).cols ((completeness_check t).rows.getD i [])
        "Completeness_Remark" =
      .vstr (if (completenessMissing t.cols (t.rows.getD i [])).isEmpty
        then "All key fields present"
        else joinSep "; " (completenessMissing t.cols (t.rows.getD i []))) := by
  have h1w : tableWF (setColConst t "Completeness_OK" (Val.vbool true)) = true :=
    tableWF_setColConst _ _ hwf
  have h1l : (setColConst t "Completeness_OK" (Val.vbool true)).rows.length = t.rows.length :=
    setColConst_rows_length _ _ _
  have h2w : tableWF (setColConst (setColConst t "Completeness_OK" (Val.vbool true))
      "Completeness_Remark" (Val.vstr "")) = true := tableWF_setColConst _ _ h1w
  have h2l : (setColConst (setColConst t "Completeness_OK" (Val.vbool true))
      "Completeness_Remark" (Val.vstr "")).rows.length = t.rows.length := by
    rw [setColConst_rows_length, h1l]
  have hi2 : i < (setColConst (setColConst t "Completeness_OK" (Val.vbool true))
      "Completeness_Remark" (Val.vstr "")).rows.length := by
    rw [h2l]
    exact hi
  unfold completeness_check
  simp only
  have hout := setCol2_out (setColConst (setColConst t "Completeness_OK" (Val.vbool true))
      "Completeness_Remark" (Val.vstr "")) "Completeness_OK" "Completeness_Remark"
    (t.rows.map (fun r => Val.vbool (completenessMissing t.cols r).isEmpty))
    (t.rows.map (fun r =>
      Val.vstr (if (completenessMissing t.cols r).isEmpty then "All key fields present"
        else joinSep "; " (completenessMissing t.cols r))))
    h2w i hi2 (by simp [h2l]) (by simp [h2l]) (by decide)
  rw [hout.1, hout.2, getD_map_of_lt _ _ _ _ hi, getD_map_of_lt _ _ _ _ hi,
    ← getD_of_lt _ _ _ hi]
  exact ⟨rfl, rfl⟩


theorem mem_mand_fold (cm : String → Option String) (pres : String → Bool)
    (l : List (String × String)) (s : String)
    (h : s ∈ l.foldr (fun p acc =>
      match cm p.1 with
      | none => (p.2 ++ " (column not found)") :: acc
      | some col => if pres col then acc else p.2 :: acc) []) :
    ∃ p ∈ l, s = p.2 ∨ s = p.2 ++ " (column not found)" := by
  induction l with
  | nil => simp at h
  | cons q qs ih =>
    simp only [List.foldr_cons] at h
    cases hc : cm q.1 with
    | none =>
      rw [hc] at h
      simp only [] at h
      rcases List.mem_cons.mp h with h | h
      · exact ⟨q, List.mem_cons_self _ _, Or.inr h⟩
      · rcases ih h with ⟨p, hp, hs⟩
        exact ⟨p, List.mem_cons_of_mem _ hp, hs⟩
    | some c =>
      rw [hc] at h
      simp only [] at h
      by_cases hp : pres c = true
      · rw [if_pos hp] at h
        rcases ih h with ⟨p, hpmem, hs⟩
        exact ⟨p, List.mem_cons_of_mem _ hpmem, hs⟩
      · rw [if_neg hp] at h
        rcases List.mem_cons.mp h with h | h
        · exact ⟨q, List.mem_cons_self _ _, Or.inl h⟩
        · rcases ih h with ⟨p, hpmem, hs⟩
          exact ⟨p, List.mem_cons_of_mem _ hpmem, hs⟩

theorem mem_teamPart {cols : List String} {r : List Val} {s key disp dispNF : String}
    (h : s ∈ (match completenessColmap cols key with
      | none => ([dispNF] : List String)
      | some c => if cPresent (rowGet cols r c) then [] else [disp])) :
    s = disp ∨ s = dispNF := by
  cases hc : completenessColmap cols key with
  | none =>
    rw [hc] at h
    simp only [] at h
    simp at h
    exact Or.inr h
  | some c =>
    rw [hc] at h
    simp only [] at h
    by_cases hp : cPresent (rowGet cols r c) = true
    · rw [if_pos hp] at h
      simp at h
    · rw [if_neg hp] at h
      simp at h
      exact Or.inl h

theorem mem_teamPartElse {cols : List String} {r : List Val} {s key disp : String}
    (h : s ∈ (match completenessColmap cols key with
      | none => ([] : List String)
      | some c => if cPresent (rowGet cols r c) then [] else [disp])) :
    s = disp := by
  cases hc : completenessColmap cols key with
  | none =>
    rw [hc] at h
    simp only [] at h
    simp at h
  | some c =>
    rw [hc] at h
    simp only [] at h
    by_cases hp : cPresent (rowGet cols r c) = true
    · rw [if_pos hp] at h
      simp at h
    · rw [if_neg hp] at h
      simp at h
      exact h

theorem mem_completenessTeamMissing {cols : List String} {r : List Val} {s : String}
    (h : s ∈ completenessTeamMissing cols r) :
    s = "Home Team" ∨ s = "Home Team (column not found)" ∨ s = "Away Team" ∨
    s = "Away Team (column not found)" := by
  unfold completenessTeamMissing at h
  simp only [] at h
  by_cases h1 : liveTypes.contains (completenessProgType cols r) = true
  · rw [if_pos h1] at h
    rcases List.mem_append.mp h with h | h
    · rcases mem_teamPart h with h | h
      · exact Or.inl h
      · exact Or.inr (Or.inl h)
    · rcases mem_teamPart h with h | h
      · exact Or.inr (Or.inr (Or.inl h))
      · exact Or.inr (Or.inr (Or.inr h))
  · rw [if_neg h1] at h
    by_cases h2 : relaxedTypes.contains (completenessProgType cols r) = true
    · rw [if_pos h2] at h
      simp at h
    · rw [if_neg h2] at h
      rcases List.mem_append.mp h with h | h
      · exact Or.inl (mem_teamPartElse h)
      · exact Or.inr (Or.inr (Or.inl (mem_teamPartElse h)))

theorem completenessAudienceMissing_eq {cols : List String} {r : List Val} {ce cm2 : String}
    (hE : completenessColmap cols "aud_estimates" = some ce)
    (hM : completenessColmap cols "aud_metered" = some cm2) :
    completenessAudienceMissing cols r =
      (if !(cPresent (rowGet cols r ce) || cPresent (rowGet cols r cm2)) then
        ["Audience (Estimates/Metered)"] else []) := by
  unfold completenessAudienceMissing
  rw [hE, hM]
  simp

-- ===================== Claim theorems =====================

/-- C4: the Rates and Ratings check is a per-row XOR: a numeric zero counts
as present, while blank, NaN and none-like tokens do not; a row with
exactly one audience column present passes with remark "Valid: one rating
source available"; both present fails, both empty fails, and the two
failure remarks are distinct. -/
theorem C4_theorem (t : Table) (hwf : tableWF t = true) (i : Nat) (hi : i < t.rows.length) :
    rPresent (.vnum 0) = true ∧ rPresent (.vstr "") = false ∧ rPresent .missing = false ∧
    rPresent (.vstr "nan") = false ∧ rPresent (.vstr "n/a") = false ∧
    ((rPresent (rowGet t.cols (t.rows.getD i []) (ratesEstCol t.cols)) !=
        rPresent (rowGet t.cols (t.rows.getD i []) (ratesMetCol t.cols))) = true →
      rowGet (rates_and_ratings_check t).cols ((rates_and_ratings_check t).rows.getD i [])
          "Rates_Ratings_QC_OK" = .vbool true ∧
      rowGet (rates_and_ratings_check t).cols ((rates_and_ratings_check t).rows.getD i [])
          "Rates_Ratings_QC_Remark" = .vstr "Valid: one rating source available") ∧
    (rPresent (rowGet t.cols (t.rows.getD i []) (ratesEstCol t.cols)) = true →
      rPresent (rowGet t.cols (t.rows.getD i []) (ratesMetCol t.cols)) = true →
      rowGet (rates_and_ratings_check t).cols ((rates_and_ratings_check t).rows.getD i [])
          "Rates_Ratings_QC_OK" = .vbool false ∧
      rowGet (rates_and_ratings_check t).cols ((rates_and_ratings_check t).rows.getD i [])
          "Rates_Ratings_QC_Remark" = .vstr "Invalid: both metered and estimated present") ∧
    (rPresent (rowGet t.cols (t.rows.getD i []) (ratesEstCol t.cols)) = false →
      rPresent (rowGet t.cols (t.rows.getD i []) (ratesMetCol t.cols)) = false →
      rowGet (rates_and_ratings_check t).cols ((rates_and_ratings_check t).rows.getD i [])
          "Rates_Ratings_QC_OK" = .vbool false ∧
      rowGet (rates_and_ratings_check t).cols ((rates_and_ratings_check t).rows.getD i [])
          "Rates_Ratings_QC_Remark" = .vstr "Missing audience ratings (both empty)") ∧
    ("Invalid: both metered and estimated present" ≠ "Missing audience ratings (both empty)") := by
  obtain ⟨hOK, hREM⟩ := rates_out t hwf i hi
  refine ⟨by decide, by decide, by decide, by decide, by decide, ?_, ?_, ?_, by decide⟩
  · intro hx
    rw [hOK, hREM]
    cases he : rPresent (rowGet t.cols (t.rows.getD i []) (ratesEstCol t.cols)) <;>
      cases hm : rPresent (rowGet t.cols (t.rows.getD i []) (ratesMetCol t.cols)) <;>
      simp_all [ratesRowResult]
  · intro he hm
    rw [hOK, hREM, he, hm]
    simp [ratesRowResult]
  · intro he hm
    rw [hOK, hREM, he, hm]
    simp [ratesRowResult]

/-- C4 witness: on a one-row table with estimate 0 and metered blank, the
check passes with the valid remark. -/
theorem C4_witness :
    rowGet (rates_and_ratings_check (Table.mk
        ["Aud. Estimates [\x27000s]", "Aud Metered (000s) 3+"] [[.vnum 0, .missing]])).cols
      ((rates_and_ratings_check (Table.mk
        ["Aud. Estimates [\x27000s]", "Aud Metered (000s) 3+"] [[.vnum 0, .missing]])).rows.getD
        0 []) "Rates_Ratings_QC_OK" = .vbool true ∧
    rowGet (rates_and_ratings_check (Table.mk
        ["Aud. Estimates [\x27000s]", "Aud Metered (000s) 3+"] [[.vnum 0, .missing]])).cols
      ((rates_and_ratings_check (Table.mk
        ["Aud. Estimates [\x27000s]", "Aud Metered (000s) 3+"] [[.vnum 0, .missing]])).rows.getD
        0 []) "Rates_Ratings_QC_Remark" = .vstr "Valid: one rating source available" := by
  have h := C4_theorem (Table.mk
    ["Aud. Estimates [\x27000s]", "Aud Metered (000s) 3+"] [[.vnum 0, .missing]])
    (by decide) 0 (by decide)
  exact h.2.2.2.2.2.1 (by decide)

/-- C10: the three classifications of the Rates and Ratings check form a
partition, so every row's remark is one of the three defined remarks and
never "Unknown rating status" or empty. -/
theorem C10_theorem (t : Table) (hwf : tableWF t = true) (i : Nat) (hi : i < t.rows.length) :
    (rowGet (rates_and_ratings_check t).cols ((rates_and_ratings_check t).rows.getD i [])
        "Rates_Ratings_QC_Remark" = .vstr "Missing audience ratings (both empty)" ∨
      rowGet (rates_and_ratings_check t).cols ((rates_and_ratings_check t).rows.getD i [])
        "Rates_Ratings_QC_Remark" = .vstr "Invalid: both metered and estimated present" ∨
      rowGet (rates_and_ratings_check t).cols ((rates_and_ratings_check t).rows.getD i [])
        "Rates_Ratings_QC_Remark" = .vstr "Valid: one rating source available") ∧
    rowGet (rates_and_ratings_check t).cols ((rates_and_ratings_check t).rows.getD i [])
        "Rates_Ratings_QC_Remark" ≠ .vstr "Unknown rating status" ∧
    rowGet (rates_and_ratings_check t).cols ((rates_and_ratings_check t).rows.getD i [])
        "Rates_Ratings_QC_Remark" ≠ .vstr "" := by
  obtain ⟨hOK, hREM⟩ := rates_out t hwf i hi
  rw [hREM]
  cases he : rPresent (rowGet t.cols (t.rows.getD i []) (ratesEstCol t.cols)) <;>
    cases hm : rPresent (rowGet t.cols (t.rows.getD i []) (ratesMetCol t.cols)) <;>
    simp [ratesRowResult]

/-- C10 witness: a one-row table with both audience cells blank gets the
both-empty remark, which is among the three defined remarks. -/
theorem C10_witness :
    rowGet (rates_and_ratings_check (Table.mk
        ["Aud. Estimates [\x27000s]", "Aud Metered (000s) 3+"] [[.missing, .missing]])).cols
      ((rates_and_ratings_check (Table.mk
        ["Aud. Estimates [\x27000s]", "Aud Metered (000s) 3+"] [[.missing, .missing]])).rows.getD
        0 []) "Rates_Ratings_QC_Remark" ≠ .vstr "Unknown rating status" := by
  exact (C10_theorem (Table.mk
    ["Aud. Estimates [\x27000s]", "Aud Metered (000s) 3+"] [[.missing, .missing]])
    (by decide) 0 (by decide)).2.1

theorem mem_completenessAudienceMissing {cols : List String} {r : List Val} {s : String}
    (h : s ∈ completenessAudienceMissing cols r) :
    s = "Audience (Estimates/Metered) (columns not found)" ∨
    s = "Audience (Estimates/Metered)" := by
  unfold completenessAudienceMissing at h
  simp only [] at h
  split at h
  · simp at h
    exact Or.inl h
  · split at h
    · simp at h
      exact Or.inr h
    · simp at h

theorem mem_completenessMandatoryMissing {cols : List String} {r : List Val} {s : String}
    (h : s ∈ completenessMandatoryMissing cols r) :
    ∃ p ∈ mandatoryPairs, s = p.2 ∨ s = p.2 ++ " (column not found)" := by
  unfold completenessMandatoryMissing at h
  exact mem_mand_fold _ _ _ _ h

/-- C1 (amended): in the Completeness check the audience rule requires at
least one (not exactly one) of the two audience fields: when both columns
resolve, the remark entry "Audience (Estimates/Metered)" appears iff both
cells are absent (so a row with both fields present passes the audience
rule), the "(columns not found)" entry never appears, and the row's
Completeness_OK is true exactly when its missing list is empty. -/
theorem C1_theorem (t : Table) (hwf : tableWF t = true) (i : Nat) (hi : i < t.rows.length)
    (ce cm2 : String)
    (hE : completenessColmap t.cols "aud_estimates" = some ce)
    (hM : completenessColmap t.cols "aud_metered" = some cm2) :
    ("Audience (Estimates/Metered)" ∈ completenessMissing t.cols (t.rows.getD i []) ↔
      (cPresent (rowGet t.cols (t.rows.getD i []) ce) = false ∧
       cPresent (rowGet t.cols (t.rows.getD i []) cm2) = false)) ∧
    "Audience (Estimates/Metered) (columns not found)" ∉
      completenessMissing t.cols (t.rows.getD i []) ∧
    rowGet (completeness_check t).cols ((completeness_check t).rows.getD i [])
      "Completeness_OK" = .vbool (completenessMissing t.cols (t.rows.getD i [])).isEmpty := by
  refine ⟨⟨?_, ?_⟩, ?_, (completeness_out t hwf i hi).1⟩
  · intro hmem
    unfold completenessMissing at hmem
    rcases List.mem_append.mp hmem with hmem | hmem
    · rcases List.mem_append.mp hmem with hmem | hmem
      · rcases mem_completenessMandatoryMissing hmem with ⟨p, hp, hs⟩
        simp [mandatoryPairs] at hp
        rcases hp with hp | hp | hp | hp <;> subst hp <;> rcases hs with hs | hs <;>
          exact absurd hs (by decide)
      · rw [completenessAudienceMissing_eq hE hM] at hmem
        by_cases hcond : (!(cPresent (rowGet t.cols (t.rows.getD i []) ce) ||
            cPresent (rowGet t.cols (t.rows.getD i []) cm2))) = true
        · simp only [Bool.not_eq_true', Bool.or_eq_false_iff] at hcond
          exact hcond
        · rw [if_neg hcond] at hmem
          simp at hmem
    · rcases mem_completenessTeamMissing hmem with hs | hs | hs | hs <;>
        exact absurd hs (by decide)
  · intro hcond
    unfold completenessMissing
    refine List.mem_append.mpr (Or.inl (List.mem_append.mpr (Or.inr ?_)))
    rw [completenessAudienceMissing_eq hE hM, hcond.1, hcond.2]
    simp
  · intro hmem
    unfold completenessMissing at hmem
    rcases List.mem_append.mp hmem with hmem | hmem
    · rcases List.mem_append.mp hmem with hmem | hmem
      · rcases mem_completenessMandatoryMissing hmem with ⟨p, hp, hs⟩
        simp [mandatoryPairs] at hp
        rcases hp with hp | hp | hp | hp <;> subst hp <;> rcases hs with hs | hs <;>
          exact absurd hs (by decide)
      · rw [completenessAudienceMissing_eq hE hM] at hmem
        by_cases hcond : (!(cPresent (rowGet t.cols (t.rows.getD i []) ce) ||
            cPresent (rowGet t.cols (t.rows.getD i []) cm2))) = true
        · rw [if_pos hcond] at hmem
          simp at hmem
        · rw [if_neg hcond] at hmem
          simp at hmem
    · rcases mem_completenessTeamMissing hmem with hs | hs | hs | hs <;>
        exact absurd hs (by decide)

/-- C1 counterexample: a row with every mandatory field present and BOTH
audience fields present (estimate 5, metered 3) is marked
Completeness_OK true with the all-fields-present remark, where the claim
requires a failure with a distinct both-present remark. -/
theorem C1_counterexample :
    cPresent (rowGet
        ["TV Channel", "Channel ID", "Matchday", "Source", "Type of Program",
         "Aud. Estimates [\x27000s]", "Aud Metered (000s) 3+"]
        [.vstr "C1", .vstr "ID1", .vstr "1", .vstr "client", .vstr "highlights",
         .vnum 5, .vnum 3] "Aud. Estimates [\x27000s]") = true ∧
    cPresent (rowGet
        ["TV Channel", "Channel ID", "Matchday", "Source", "Type of Program",
         "Aud. Estimates [\x27000s]", "Aud Metered (000s) 3+"]
        [.vstr "C1", .vstr "ID1", .vstr "1", .vstr "client", .vstr "highlights",
         .vnum 5, .vnum 3] "Aud Metered (000s) 3+") = true ∧
    rowGet (completeness_check (Table.mk
        ["TV Channel", "Channel ID", "Matchday", "Source", "Type of Program",
         "Aud. Estimates [\x27000s]", "Aud Metered (000s) 3+"]
        [[.vstr "C1", .vstr "ID1", .vstr "1", .vstr "client", .vstr "highlights",
          .vnum 5, .vnum 3]])).cols
      ((completeness_check (Table.mk
        ["TV Channel", "Channel ID", "Matchday", "Source", "Type of Program",
         "Aud. Estimates [\x27000s]", "Aud Metered (000s) 3+"]
        [[.vstr "C1", .vstr "ID1", .vstr "1", .vstr "client", .vstr "highlights",
          .vnum 5, .vnum 3]])).rows.getD 0 []) "Completeness_OK" = .vbool true ∧
    rowGet (completeness_check (Table.mk
        ["TV Channel", "Channel ID", "Matchday", "Source", "Type of Program",
         "Aud. Estimates [\x27000s]", "Aud Metered (000s) 3+"]
        [[.vstr "C1", .vstr "ID1", .vstr "1", .vstr "client", .vstr "highlights",
          .vnum 5, .vnum 3]])).cols
      ((completeness_check (Table.mk
        ["TV Channel", "Channel ID", "Matchday", "Source", "Type of Program",
         "Aud. Estimates [\x27000s]", "Aud Metered (000s) 3+"]
        [[.vstr "C1", .vstr "ID1", .vstr "1", .vstr "client", .vstr "highlights",
          .vnum 5, .vnum 3]])).rows.getD 0 []) "Completeness_Remark" =
      .vstr "All key fields present" := by
  decide

/-- C1 witness: on a row whose audience columns both resolve and are both
blank, the audience remark entry is in the missing list. -/
theorem C1_witness :
    "Audience (Estimates/Metered)" ∈ completenessMissing
      ["TV Channel", "Channel ID", "Matchday", "Source", "Type of Program",
       "Aud. Estimates [\x27000s]", "Aud Metered (000s) 3+"]
      [.vstr "C1", .vstr "ID1", .vstr "1", .vstr "client", .vstr "highlights",
       .missing, .missing] := by
  have h := C1_theorem (Table.mk
      ["TV Channel", "Channel ID", "Matchday", "Source", "Type of Program",
       "Aud. Estimates [\x27000s]", "Aud Metered (000s) 3+"]
      [[.vstr "C1", .vstr "ID1", .vstr "1", .vstr "client", .vstr "highlights",
        .missing, .missing]])
    (by decide) 0 (by decide) "Aud. Estimates [\x27000s]" "Aud Metered (000s) 3+"
    (by decide) (by decide)
  exact h.1.mpr ⟨by decide, by decide⟩

theorem completenessTeamMissing_else {cols : List String} {r : List Val}
    (hlive : liveTypes.contains (completenessProgType cols r) = false)
    (hrelax : relaxedTypes.contains (completenessProgType cols r) = false) :
    completenessTeamMissing cols r =
      (match completenessColmap cols "home_team" with
       | none => ([] : List String)
       | some c => if cPresent (rowGet cols r c) then [] else ["Home Team"]) ++
      (match completenessColmap cols "away_team" with
       | none => ([] : List String)
       | some c => if cPresent (rowGet cols r c) then [] else ["Away Team"]) := by
  unfold completenessTeamMissing
  simp only []
  rw [if_neg (by simpa using hlive), if_neg (by simpa using hrelax)]

/-- C9: for rows whose program type is neither a full-match type nor a
relaxed type, Home and Away Team are still required, but only when those
columns resolved: a resolved-but-absent value puts the team in the missing
list and fails the row, while an unresolved column contributes nothing (no
"(column not found)" entry, unlike full-match rows, which do report it). -/
theorem C9_theorem (t : Table) (hwf : tableWF t = true) (i : Nat) (hi : i < t.rows.length)
    (hlive : liveTypes.contains (completenessProgType t.cols (t.rows.getD i [])) = false)
    (hrelax : relaxedTypes.contains (completenessProgType t.cols (t.rows.getD i [])) = false) :
    (∀ ch, completenessColmap t.cols "home_team" = some ch →
      cPresent (rowGet t.cols (t.rows.getD i []) ch) = false →
      "Home Team" ∈ completenessMissing t.cols (t.rows.getD i []) ∧
      rowGet (completeness_check t).cols ((completeness_check t).rows.getD i [])
        "Completeness_OK" = .vbool false) ∧
    (completenessColmap t.cols "home_team" = none →
      "Home Team" ∉ completenessMissing t.cols (t.rows.getD i []) ∧
      "Home Team (column not found)" ∉ completenessMissing t.cols (t.rows.getD i [])) ∧
    (∀ ca, completenessColmap t.cols "away_team" = some ca →
      cPresent (rowGet t.cols (t.rows.getD i []) ca) = false →
      "Away Team" ∈ completenessMissing t.cols (t.rows.getD i [])) ∧
    (completenessColmap t.cols "away_team" = none →
      "Away Team" ∉ completenessMissing t.cols (t.rows.getD i []) ∧
      "Away Team (column not found)" ∉ completenessMissing t.cols (t.rows.getD i [])) ∧
    (∀ (cols2 : List String) (r2 : List Val),
      liveTypes.contains (completenessProgType cols2 r2) = true →
      completenessColmap cols2 "home_team" = none →
      "Home Team (column not found)" ∈ completenessMissing cols2 r2) := by
  have hteam := completenessTeamMissing_else hlive hrelax
  have hmemHome : ∀ s : String, s ∈ completenessMissing t.cols (t.rows.getD i []) →
      s = "TV Channel" ∨ s = "TV Channel (column not found)" ∨ s = "Channel ID" ∨
      s = "Channel ID (column not found)" ∨ s = "Match Day" ∨
      s = "Match Day (column not found)" ∨ s = "Source" ∨ s = "Source (column not found)" ∨
      s = "Audience (Estimates/Metered)" ∨
      s = "Audience (Estimates/Metered) (columns not found)" ∨
      s ∈ completenessTeamMissing t.cols (t.rows.getD i []) := by
    intro s hmem
    unfold completenessMissing at hmem
    rcases List.mem_append.mp hmem with hmem | hmem
    · rcases List.mem_append.mp hmem with hmem | hmem
      · rcases mem_completenessMandatoryMissing hmem with ⟨p, hp, hs⟩
        simp [mandatoryPairs] at hp
        rcases hp with hp | hp | hp | hp <;> subst hp <;> rcases hs with hs | hs <;> simp_all
      · rcases mem_completenessAudienceMissing hmem with hs | hs <;> simp_all
    · tauto
  refine ⟨?_, ?_, ?_, ?_, ?_⟩
  · intro ch hch habs
    have hmem : "Home Team" ∈ completenessMissing t.cols (t.rows.getD i []) := by
      unfold completenessMissing
      refine List.mem_append.mpr (Or.inr ?_)
      rw [hteam, hch]
      refine List.mem_append.mpr (Or.inl ?_)
      simp only []
      rw [if_neg (by rw [habs]; decide)]
      exact List.mem_singleton.mpr rfl
    refine ⟨hmem, ?_⟩
    rw [(completeness_out t hwf i hi).1]
    have hne : completenessMissing t.cols (t.rows.getD i []) ≠ [] :=
      List.ne_nil_of_mem hmem
    have hco : (completenessMissing t.cols (t.rows.getD i [])).isEmpty = false := by
      cases hc : completenessMissing t.cols (t.rows.getD i []) with
      | nil => exact absurd hc hne
      | cons a as => rfl
    rw [hco]
  · intro hnone
    constructor
    · intro hmem
      rcases hmemHome _ hmem with h|h|h|h|h|h|h|h|h|h|h
      all_goals first
        | exact absurd h (by decide)
        | (rw [hteam, hnone] at h
           simp only [List.nil_append] at h
           exact absurd (mem_teamPartElse h) (by decide))
    · intro hmem
      rcases hmemHome _ hmem with h|h|h|h|h|h|h|h|h|h|h
      all_goals first
        | exact absurd h (by decide)
        | (rw [hteam, hnone] at h
           simp only [List.nil_append] at h
           exact absurd (mem_teamPartElse h) (by decide))
  · intro ca hca habs
    unfold completenessMissing
    refine List.mem_append.mpr (Or.inr ?_)
    rw [hteam, hca]
    refine List.mem_append.mpr (Or.inr ?_)
    simp only []
    rw [if_neg (by rw [habs]; decide)]
    exact List.mem_singleton.mpr rfl
  · intro hnone
    constructor
    · intro hmem
      rcases hmemHome _ hmem with h|h|h|h|h|h|h|h|h|h|h
      all_goals first
        | exact absurd h (by decide)
        | (rw [hteam, hnone] at h
           rcases List.mem_append.mp h with h | h
           · exact absurd (mem_teamPartElse h) (by decide)
           · simp at h)
    · intro hmem
      rcases hmemHome _ hmem with h|h|h|h|h|h|h|h|h|h|h
      all_goals first
        | exact absurd h (by decide)
        | (rw [hteam, hnone] at h
           rcases List.mem_append.mp h with h | h
           · exact absurd (mem_teamPartElse h) (by decide)
           · simp at h)
  · intro cols2 r2 hlive2 hnone2
    unfold completenessMissing
    refine List.mem_append.mpr (Or.inr ?_)
    unfold completenessTeamMissing
    simp only []
    rw [if_pos hlive2, hnone2]
    simp

/-- C9 witness: a row with a blank unrecognized type, resolved Home and
Away Team columns and a blank Home Team cell reports "Home Team" in its
missing list and fails the row. -/
theorem C9_witness :
    "Home Team" ∈ completenessMissing
      ["TV Channel", "Channel ID", "Matchday", "Source", "Type of Program",
       "Home Team", "Away Team"]
      [.vstr "C1", .vstr "ID1", .vstr "1", .vstr "client", .vstr "weird-type",
       .missing, .vstr "B"] ∧
    rowGet (completeness_check (Table.mk
        ["TV Channel", "Channel ID", "Matchday", "Source", "Type of Program",
         "Home Team", "Away Team"]
        [[.vstr "C1", .vstr "ID1", .vstr "1", .vstr "client", .vstr "weird-type",
          .missing, .vstr "B"]])).cols
      ((completeness_check (Table.mk
        ["TV Channel", "Channel ID", "Matchday", "Source", "Type of Program",
         "Home Team", "Away Team"]
        [[.vstr "C1", .vstr "ID1", .vstr "1", .vstr "client", .vstr "weird-type",
          .missing, .vstr "B"]])).rows.getD 0 []) "Completeness_OK" = .vbool false := by
  have h := C9_theorem (Table.mk
      ["TV Channel", "Channel ID", "Matchday", "Source", "Type of Program",
       "Home Team", "Away Team"]
      [[.vstr "C1", .vstr "ID1", .vstr "1", .vstr "client", .vstr "weird-type",
        .missing, .vstr "B"]])
    (by decide) 0 (by decide) (by decide) (by decide)
  exact h.1 "Home Team" (by decide) (by decide)

theorem setColConst2_out (base : Table) (n1 n2 : String) (v1 v2 : Val)
    (hwf : tableWF base = true) (i : Nat) (hi : i < base.rows.length) (hne : n2 ≠ n1) :
    rowGet (setColConst (setColConst base n1 v1) n2 v2).cols
      ((setColConst (setColConst base n1 v1) n2 v2).rows.getD i []) n1 = v1 ∧
    rowGet (setColConst (setColConst base n1 v1) n2 v2).cols
      ((setColConst (setColConst base n1 v1) n2 v2).rows.getD i []) n2 = v2 := by
  have hw1 : tableWF (setColConst base n1 v1) = true := tableWF_setColConst n1 v1 hwf
  have hi1 : i < (setColConst base n1 v1).rows.length := by
    rw [setColConst_rows_length]
    exact hi
  constructor
  · rw [rowGet_setColConst_ne hw1 hi1 (Ne.symm hne)]
    exact rowGet_setColConst_self hwf hi
  · exact rowGet_setColConst_self hw1 hi1

/-- C7 (amended): when a required column is unresolved, domestic_market_check
degrades properly, marking every row "Not Applicable" with the remark
"Required column missing"; but period_check on a table with no date column
does NOT degrade with a remark: it silently marks every row as within the
monitoring period (Within_Period_OK true) with an empty remark. -/
theorem C7_theorem (t : Table) (hwf : tableWF t = true) (i : Nat) (hi : i < t.rows.length)
    (startD endD : Date) (kw : String) :
    (t.cols.find? (fun c => strHasSub (pyLower c) "date") = none →
      rowGet (period_check t startD endD).cols ((period_check t startD endD).rows.getD i [])
        "Within_Period_OK" = .vbool true ∧
      rowGet (period_check t startD endD).cols ((period_check t startD endD).rows.getD i [])
        "Within_Period_Remark" = .vstr "") ∧
    ((["Market", "Competition", "Event", "Type of program", "Matchday"].any
        (fun c => (colIdx t.cols c).isNone)) = true →
      rowGet (domestic_market_check t kw).cols ((domestic_market_check t kw).rows.getD i [])
        "Domestic Market Coverage Check_OK" = .vstr "Not Applicable" ∧
      rowGet (domestic_market_check t kw).cols ((domestic_market_check t kw).rows.getD i [])
        "Domestic Market Coverage Remark" = .vstr "Required column missing") := by
  constructor
  · intro hnone
    have h := setColConst2_out t "Within_Period_OK" "Within_Period_Remark"
      (.vbool true) (.vstr "") hwf i hi (by decide)
    unfold period_check
    rw [hnone]
    exact ⟨h.1, h.2⟩
  · intro hmiss
    have h := setColConst2_out t "Domestic Market Coverage Check_OK"
      "Domestic Market Coverage Remark" (.vstr "Not Applicable")
      (.vstr "Required column missing") hwf i hi (by decide)
    unfold domestic_market_check
    rw [if_pos hmiss]
    exact ⟨h.1, h.2⟩

/-- C7 counterexample: on a table whose only column is "TV Channel" (so no
date column resolves), period_check marks the row as within the period with
an empty remark — a silent pass, refuting the claim that every check
degrades with an explanatory remark. -/
theorem C7_counterexample :
    (Table.mk ["TV Channel"] [[.vstr "C1"]]).cols.find?
      (fun c => strHasSub (pyLower c) "date") = none ∧
    rowGet (period_check (Table.mk ["TV Channel"] [[.vstr "C1"]])
        (Date.mk 2024 1 1) (Date.mk 2024 1 31)).cols
      ((period_check (Table.mk ["TV Channel"] [[.vstr "C1"]])
        (Date.mk 2024 1 1) (Date.mk 2024 1 31)).rows.getD 0 [])
      "Within_Period_OK" = .vbool true ∧
    rowGet (period_check (Table.mk ["TV Channel"] [[.vstr "C1"]])
        (Date.mk 2024 1 1) (Date.mk 2024 1 31)).cols
      ((period_check (Table.mk ["TV Channel"] [[.vstr "C1"]])
        (Date.mk 2024 1 1) (Date.mk 2024 1 31)).rows.getD 0 [])
      "Within_Period_Remark" = .vstr "" := by
  decide

/-- C7 witness: the amended theorem applied to a one-column table, which
lacks both a date column and the domestic-check required columns. -/
theorem C7_witness :
    rowGet (domestic_market_check (Table.mk ["Event"] [[.vstr "E1"]]) "F24 Spain").cols
      ((domestic_market_check (Table.mk ["Event"] [[.vstr "E1"]]) "F24 Spain").rows.getD 0 [])
      "Domestic Market Coverage Check_OK" = .vstr "Not Applicable" ∧
    rowGet (period_check (Table.mk ["Event"] [[.vstr "E1"]])
        (Date.mk 2024 1 1) (Date.mk 2024 2 1)).cols
      ((period_check (Table.mk ["Event"] [[.vstr "E1"]])
        (Date.mk 2024 1 1) (Date.mk 2024 2 1)).rows.getD 0 [])
      "Within_Period_OK" = .vbool true := by
  have h := C7_theorem (Table.mk ["Event"] [[.vstr "E1"]]) (by decide) 0 (by decide)
    (Date.mk 2024 1 1) (Date.mk 2024 2 1) "F24 Spain"
  exact ⟨(h.2 (by decide)).1, (h.1 (by decide)).1⟩

theorem adjPairs_getD {β : Type} (f : WorkRow → WorkRow → β) (prev : WorkRow)
    (ws : List WorkRow) (j : Nat) (hj : j < ws.length) (d : β) (dw : WorkRow) :
    (adjPairs f prev ws).getD j d = f ((prev :: ws).getD j dw) (ws.getD j dw) := by
  induction ws generalizing prev j with
  | nil => exact absurd hj (by simp)
  | cons b bs ih =>
    cases j with
    | zero => rfl
    | succ k =>
      have hk : k < bs.length := by simpa using hj
      show (adjPairs f b bs).getD k d = _
      rw [ih b k hk]
      rfl

/-- C5: between two consecutive rows of the same sort group (same channel,
same date, current row not OTT, both times parsed), the later row is
flagged as an overlap iff its start is strictly before the previous end;
exact equality is not flagged. Positionally, flag j+1 of the sorted view
compares rows j and j+1, and the first row is never flagged. -/
theorem C5_theorem (cols : List String) (prev curr : WorkRow) (s e : Nat)
    (hs : curr.qStart = some s) (he : prev.qEnd = some e)
    (hch : (colIdx cols (ovCols cols).ch).isSome = true)
    (hsame : valEqPd (rowGet cols curr.row (ovCols cols).ch)
      (rowGet cols prev.row (ovCols cols).ch) = true)
    (hdc : (colIdx cols (ovCols cols).dateC).isSome = true)
    (hsd : valEqPd (rowGet cols curr.row (ovCols cols).dateC)
      (rowGet cols prev.row (ovCols cols).dateC) = true)
    (hott : isOtt cols curr = false)
    (w : WorkRow) (ws : List WorkRow) (j : Nat) (hj : j < ws.length) :
    (overlapPair cols prev curr = true ↔ s < e) ∧
    (s = e → overlapPair cols prev curr = false) ∧
    (overlapFlags cols (w :: ws)).getD (j + 1) false =
      overlapPair cols ((w :: ws).getD j w) (ws.getD j w) ∧
    (overlapFlags cols (w :: ws)).getD 0 false = false := by
  have hiff : overlapPair cols prev curr = true ↔ s < e := by
    unfold overlapPair
    rw [hs, he]
    simp [hch, hsame, hdc, hsd, hott]
  refine ⟨hiff, ?_, ?_, rfl⟩
  · intro hse
    subst hse
    cases hfl : overlapPair cols prev curr
    · rfl
    · exact absurd (hiff.mp hfl) (lt_irrefl s)
  · show (false :: adjPairs (overlapPair cols) w ws).getD (j + 1) false = _
    rw [List.getD_cons_succ]
    exact adjPairs_getD (overlapPair cols) w ws j hj false w

/-- C5 witness: same channel and date, row A 10:00-11:00; row B starting
10:30 is flagged, row B starting exactly 11:00 is not. -/
theorem C5_witness :
    overlapPair ["TV Channel", "Date (UTC/GMT)"]
      ⟨0, [.vstr "C1", .vstr "2024-01-01"], some 36000, some 39600⟩
      ⟨1, [.vstr "C1", .vstr "2024-01-01"], some 37800, some 41400⟩ = true ∧
    overlapPair ["TV Channel", "Date (UTC/GMT)"]
      ⟨0, [.vstr "C1", .vstr "2024-01-01"], some 36000, some 39600⟩
      ⟨1, [.vstr "C1", .vstr "2024-01-01"], some 39600, some 43200⟩ = false := by
  have h1 := C5_theorem ["TV Channel", "Date (UTC/GMT)"]
    ⟨0, [.vstr "C1", .vstr "2024-01-01"], some 36000, some 39600⟩
    ⟨1, [.vstr "C1", .vstr "2024-01-01"], some 37800, some 41400⟩ 37800 39600
    rfl rfl (by decide) (by decide) (by decide) (by decide) (by decide)
    ⟨0, [], none, none⟩ [⟨1, [], none, none⟩] 0 (by decide)
  have h2 := C5_theorem ["TV Channel", "Date (UTC/GMT)"]
    ⟨0, [.vstr "C1", .vstr "2024-01-01"], some 36000, some 39600⟩
    ⟨1, [.vstr "C1", .vstr "2024-01-01"], some 39600, some 43200⟩ 39600 39600
    rfl rfl (by decide) (by decide) (by decide) (by decide) (by decide)
    ⟨0, [], none, none⟩ [⟨1, [], none, none⟩] 0 (by decide)
  exact ⟨h1.1.mpr (by decide), h2.2.1 rfl⟩

/-- C6: the period detector returns the first two ISO dates of the first
row whose flattened text contains "Monitoring Period" case-insensitively;
with no matching row (the secondary phrase search can never match more,
since both alternative phrases contain the first as a case-insensitive
substring), it returns the first two ISO dates of the whole flattened
document; and whenever it does not return a pair it returns an error. -/
theorem C6_theorem (grid : List (List String)) :
    (∀ row rest, (grid.map joinSpace).filter
        (fun s => strHasSubCI s "Monitoring Period") = row :: rest →
      ∀ f0 f1 fs, isoScan row = f0 :: f1 :: fs →
      ∀ d0 d1, parseIsoDate f0 = some d0 → parseIsoDate f1 = some d1 →
      detect_period_from_rosco grid = .ok (d0, d1)) ∧
    ((grid.map joinSpace).filter (fun s => strHasSubCI s "Monitoring Period") = [] →
      ∀ f0 f1 fs, isoScan (joinSpace (grid.map joinSpace)) = f0 :: f1 :: fs →
      ∀ d0 d1, parseIsoDate f0 = some d0 → parseIsoDate f1 = some d1 →
      detect_period_from_rosco grid = .ok (d0, d1)) ∧
    ((∀ p, detect_period_from_rosco grid ≠ .ok p) →
      ∃ msg, detect_period_from_rosco grid = .error msg) := by
  refine ⟨?_, ?_, ?_⟩
  · intro row rest hf f0 f1 fs hscan d0 d1 h0 h1
    simp only [detect_period_from_rosco]
    rw [hf]
    simp [hscan, h0, h1]
  · intro hempty f0 f1 fs hscan d0 d1 h0 h1
    have hnone : ∀ a ∈ grid.map joinSpace, ¬ (strHasSubCI a "Monitoring Period" = true) := by
      intro a ha
      have := List.filter_eq_nil_iff.mp hempty a ha
      simpa using this
    have h2 : (grid.map joinSpace).filter
        (fun s => strHasSubCI s "Monitoring Periods" || strHasSubCI s "Monitoring period") = [] := by
      rw [List.filter_eq_nil_iff]
      intro a ha
      intro hor
      rcases Bool.or_eq_true_iff.mp (by simpa using hor) with hb | hb
      · exact hnone a ha (strHasSubCI_of_append ['s'] (by decide) hb)
      · exact hnone a ha (strHasSubCI_of_append [] (by decide) hb)
    simp only [detect_period_from_rosco]
    rw [hempty, h2]
    simp [hscan, h0, h1]
  · intro h
    cases hres : detect_period_from_rosco grid with
    | ok p => exact absurd hres (h p)
    | error msg => exact ⟨msg, rfl⟩

/-- C6 witness: a grid whose second row reads "Monitoring Period 2024-01-01
to 2024-01-31" yields (2024-01-01, 2024-01-31). -/
theorem C6_witness :
    detect_period_from_rosco [["x"], ["Monitoring Period 2024-01-01 to 2024-01-31"]] =
      .ok (Date.mk 2024 1 1, Date.mk 2024 1 31) := by
  have h := C6_theorem [["x"], ["Monitoring Period 2024-01-01 to 2024-01-31"]]
  exact h.1 "Monitoring Period 2024-01-01 to 2024-01-31" [] (by decide)
    "2024-01-01" "2024-01-31" [] (by decide)
    (Date.mk 2024 1 1) (Date.mk 2024 1 31) (by decide) (by decide)

theorem ov_eq (t : Table) : overlap_duplicate_daybreak_check t =
    setCol (setCol (setCol (setCol (setCol (setCol t
      "Overlap_OK" ((List.range t.rows.length).map (fun i =>
        Val.vbool (!(ovGetRes t i).ovFlag))))
      "Overlap_Remark" ((List.range t.rows.length).map (fun i =>
        Val.vstr (if (ovGetRes t i).ovFlag then "Overlap detected between consecutive events"
          else ""))))
      "Duplicate_OK" ((List.range t.rows.length).map (fun i =>
        Val.vbool (!(ovGetRes t i).dupF))))
      "Duplicate_Remark" ((List.range t.rows.length).map (fun i =>
        Val.vstr (if (ovGetRes t i).dupF then "Duplicate row found" else ""))))
      "Daybreak_OK" ((List.range t.rows.length).map (fun i =>
        Val.vbool (ovGetRes t i).dbRemark.isNone)))
      "Daybreak_Remark" ((List.range t.rows.length).map (fun i =>
        Val.vstr ((ovGetRes t i).dbRemark.getD ""))) := rfl

theorem setCol_range_both (base : Table) (nm : String) (g : Nat → Val) (m : Nat)
    (hm : base.rows.length = m ∧ tableWF base = true) :
    (setCol base nm ((List.range m).map g)).rows.length = m ∧
    tableWF (setCol base nm ((List.range m).map g)) = true := by
  have hglen : ((List.range m).map g).length = base.rows.length := by simp [hm.1]
  refine ⟨?_, tableWF_setCol hm.2 hglen⟩
  rw [setCol_rows_length _ _ _ hglen]
  exact hm.1

theorem ov_both (t : Table) (hwf : tableWF t = true) :
    (overlap_duplicate_daybreak_check t).rows.length = t.rows.length ∧
    tableWF (overlap_duplicate_daybreak_check t) = true := by
  rw [ov_eq]
  apply setCol_range_both
  apply setCol_range_both
  apply setCol_range_both
  apply setCol_range_both
  apply setCol_range_both
  apply setCol_range_both
  exact ⟨rfl, hwf⟩

theorem setCol2_zipmap_out (pre : List (List Val)) (base : Table) (n1 n2 : String)
    (f g : List Val × List Val → Val)
    (hwf : tableWF base = true) (hpre : pre.length = base.rows.length)
    (i : Nat) (hi : i < base.rows.length) (hne : n2 ≠ n1) :
    rowGet (setCol (setCol base n1 ((pre.zip base.rows).map f)) n2
        ((pre.zip base.rows).map g)).cols
      ((setCol (setCol base n1 ((pre.zip base.rows).map f)) n2
        ((pre.zip base.rows).map g)).rows.getD i []) n1 =
      f (pre.getD i [], base.rows.getD i []) ∧
    rowGet (setCol (setCol base n1 ((pre.zip base.rows).map f)) n2
        ((pre.zip base.rows).map g)).cols
      ((setCol (setCol base n1 ((pre.zip base.rows).map f)) n2
        ((pre.zip base.rows).map g)).rows.getD i []) n2 =
      g (pre.getD i [], base.rows.getD i []) := by
  have hz : (pre.zip base.rows).length = base.rows.length := by
    simp [List.length_zip, hpre]
  have h1 : ((pre.zip base.rows).map f).length = base.rows.length := by simp [hz]
  have h2 : ((pre.zip base.rows).map g).length = base.rows.length := by simp [hz]
  have hout := setCol2_out base n1 n2 _ _ hwf i hi h1 h2 hne
  have hiz : i < (pre.zip base.rows).length := by
    rw [hz]
    exact hi
  have hip : i < pre.length := by
    rw [hpre]
    exact hi
  rw [hout.1, hout.2, getD_map_of_lt _ _ _ _ hiz, getD_map_of_lt _ _ _ _ hiz,
    zip_getElem _ _ _ hip hi hiz, getD_of_lt pre _ _ hip, getD_of_lt base.rows _ _ hi]
  exact ⟨rfl, rfl⟩

theorem ovdup_eq (t : Table) (dupChannels : List String) :
    overlap_check_with_duplicates t dupChannels =
      setCol (setCol (overlap_duplicate_daybreak_check t) "Overlap_OK"
        ((t.rows.zip (overlap_duplicate_daybreak_check t).rows).map (fun p =>
          if dupChannels.contains (pyStr (rowGet t.cols p.1 (ovCols t.cols).chId)) then
            Val.vbool true
          else rowGet (overlap_duplicate_daybreak_check t).cols p.2 "Overlap_OK")))
        "Overlap_Remark"
        ((t.rows.zip (overlap_duplicate_daybreak_check t).rows).map (fun p =>
          if dupChannels.contains (pyStr (rowGet t.cols p.1 (ovCols t.cols).chId)) then
            Val.vstr "Skipped (channel duplicated across markets)"
          else rowGet (overlap_duplicate_daybreak_check t).cols p.2 "Overlap_Remark")) := rfl

theorem mem_duplicatedChannelsOf (rules : List MacroRule) (ch : String) :
    ch ∈ duplicatedChannelsOf rules ↔
      ∃ r, r ∈ rules ∧ (r.originChannel = ch ∨ r.dupChannel = ch) := by
  induction rules with
  | nil => simp [duplicatedChannelsOf]
  | cons r rs ih =>
    simp only [duplicatedChannelsOf, List.foldr_cons] at ih ⊢
    simp only [List.mem_cons]
    rw [ih]
    constructor
    · rintro (h | h | ⟨q, hq, hor⟩)
      · exact ⟨r, Or.inl rfl, Or.inl h.symm⟩
      · exact ⟨r, Or.inl rfl, Or.inr h.symm⟩
      · exact ⟨q, Or.inr hq, hor⟩
    · rintro ⟨q, hq | hq, hor⟩
      · subst hq
        rcases hor with h | h
        · exact Or.inl h.symm
        · exact Or.inr (Or.inl h.symm)
      · exact Or.inr (Or.inr ⟨q, hq, hor⟩)

/-- C3 (modelled from the spec for the overlap/duplicated-market coupling
absent from the sources): the duplicated-channels output contains exactly
the channel identifiers appearing in some duplication rule (origin or
duplicate side), and the overlap check consuming it marks every row whose
channel identifier is in the set as exempt — Overlap_OK true with remark
"Skipped (channel duplicated across markets)" — while rows outside the set
keep the embedded overlap results. -/
theorem C3_theorem (t : Table) (hwf : tableWF t = true) (dupChannels : List String)
    (rules : List MacroRule) (i : Nat) (hi : i < t.rows.length) :
    (∀ ch, ch ∈ duplicatedChannelsOf rules ↔
      ∃ r, r ∈ rules ∧ (r.originChannel = ch ∨ r.dupChannel = ch)) ∧
    (dupChannels.contains (pyStr (rowGet t.cols (t.rows.getD i []) (ovCols t.cols).chId)) =
        true →
      rowGet (overlap_check_with_duplicates t dupChannels).cols
        ((overlap_check_with_duplicates t dupChannels).rows.getD i []) "Overlap_OK" =
        .vbool true ∧
      rowGet (overlap_check_with_duplicates t dupChannels).cols
        ((overlap_check_with_duplicates t dupChannels).rows.getD i []) "Overlap_Remark" =
        .vstr "Skipped (channel duplicated across markets)") ∧
    (dupChannels.contains (pyStr (rowGet t.cols (t.rows.getD i []) (ovCols t.cols).chId)) =
        false →
      rowGet (overlap_check_with_duplicates t dupChannels).cols
        ((overlap_check_with_duplicates t dupChannels).rows.getD i []) "Overlap_OK" =
        rowGet (overlap_duplicate_daybreak_check t).cols
          ((overlap_duplicate_daybreak_check t).rows.getD i []) "Overlap_OK" ∧
      rowGet (overlap_check_with_duplicates t dupChannels).cols
        ((overlap_check_with_duplicates t dupChannels).rows.getD i []) "Overlap_Remark" =
        rowGet (overlap_duplicate_daybreak_check t).cols
          ((overlap_duplicate_daybreak_check t).rows.getD i []) "Overlap_Remark") := by
  obtain ⟨hlen, hbwf⟩ := ov_both t hwf
  have hib : i < (overlap_duplicate_daybreak_check t).rows.length := by
    rw [hlen]
    exact hi
  have hpre : t.rows.length = (overlap_duplicate_daybreak_check t).rows.length := hlen.symm
  have hout := setCol2_zipmap_out t.rows (overlap_duplicate_daybreak_check t)
    "Overlap_OK" "Overlap_Remark"
    (fun p => if dupChannels.contains (pyStr (rowGet t.cols p.1 (ovCols t.cols).chId)) then
        Val.vbool true
      else rowGet (overlap_duplicate_daybreak_check t).cols p.2 "Overlap_OK")
    (fun p => if dupChannels.contains (pyStr (rowGet t.cols p.1 (ovCols t.cols).chId)) then
        Val.vstr "Skipped (channel duplicated across markets)"
      else rowGet (overlap_duplicate_daybreak_check t).cols p.2 "Overlap_Remark")
    hbwf hpre i hib (by decide)
  refine ⟨mem_duplicatedChannelsOf rules, ?_, ?_⟩
  · intro hskip
    constructor
    · rw [ovdup_eq, hout.1]
      simp only []
      rw [if_pos hskip]
    · rw [ovdup_eq, hout.2]
      simp only []
      rw [if_pos hskip]
  · intro hskip
    constructor
    · rw [ovdup_eq, hout.1]
      simp only []
      rw [if_neg (by rw [hskip]; decide)]
    · rw [ovdup_eq, hout.2]
      simp only []
      rw [if_neg (by rw [hskip]; decide)]

/-- C3 witness: channel CH9 appears on a rule's duplicate side, and a row
carrying Channel ID CH9 is exempted with the skip remark. -/
theorem C3_witness :
    "CH9" ∈ duplicatedChannelsOf [MacroRule.mk "L" "M1" "C1" "M2" "CH9"] ∧
    rowGet (overlap_check_with_duplicates (Table.mk ["Channel ID"] [[.vstr "CH9"]])
        ["CH9"]).cols
      ((overlap_check_with_duplicates (Table.mk ["Channel ID"] [[.vstr "CH9"]])
        ["CH9"]).rows.getD 0 []) "Overlap_Remark" =
      .vstr "Skipped (channel duplicated across markets)" := by
  have h := C3_theorem (Table.mk ["Channel ID"] [[.vstr "CH9"]]) (by decide) ["CH9"]
    [MacroRule.mk "L" "M1" "C1" "M2" "CH9"] 0 (by decide)
  exact ⟨(h.1 "CH9").mpr ⟨MacroRule.mk "L" "M1" "C1" "M2" "CH9", by decide, Or.inr rfl⟩,
    (h.2.1 (by decide)).2⟩

theorem rowGet_cons (c : String) (cs : List String) (v : Val) (vs : List Val) (n : String) :
    rowGet (c :: cs) (v :: vs) n = if c == n then v else rowGet cs vs n := by
  unfold rowGet colIdx
  rw [List.findIdx?_cons]
  cases hc : c == n
  · simp only [Bool.false_eq_true, if_false]
    cases hf : cs.findIdx? (fun x => x == n) <;> simp [hf]
  · simp

theorem rowGet_nilrow (cols : List String) (n : String) : rowGet cols [] n = Val.missing := by
  unfold rowGet colIdx
  cases cols.findIdx? (fun x => x == n) <;> simp

theorem rowGet_eraseIdx (cols : List String) (r : List Val) (n : String) (j : Nat)
    (hj : j < cols.length) (hcj : (cols[j] == n) = false) :
    rowGet (cols.eraseIdx j) (r.eraseIdx j) n = rowGet cols r n := by
  induction cols generalizing r j with
  | nil => exact absurd hj (by simp)
  | cons c cs ih =>
    cases r with
    | nil =>
      show rowGet ((c :: cs).eraseIdx j) [] n = rowGet (c :: cs) [] n
      rw [rowGet_nilrow, rowGet_nilrow]
    | cons v vs =>
      cases j with
      | zero =>
        have hc : (c == n) = false := by simpa using hcj
        show rowGet cs vs n = rowGet (c :: cs) (v :: vs) n
        rw [rowGet_cons, hc]
        simp
      | succ k =>
        have hk : k < cs.length := by simpa using hj
        have hck : (cs[k] == n) = false := by simpa using hcj
        show rowGet (c :: cs.eraseIdx k) (v :: vs.eraseIdx k) n =
          rowGet (c :: cs) (v :: vs) n
        rw [rowGet_cons, rowGet_cons]
        cases hc : c == n
        · simp only [Bool.false_eq_true, if_false]
          exact ih vs k hk hck
        · simp

theorem dropCol_props (t : Table) (c : String) (hwf : tableWF t = true) :
    (dropCol t c).rows.length = t.rows.length ∧ tableWF (dropCol t c) = true ∧
    ∀ (n : String) (i : Nat), i < t.rows.length → (c == n) = false →
      rowGet (dropCol t c).cols ((dropCol t c).rows.getD i []) n =
        rowGet t.cols (t.rows.getD i []) n := by
  cases hc : colIdx t.cols c with
  | none =>
    refine ⟨by simp [dropCol, hc], by simp [dropCol, hc, hwf], ?_⟩
    intro n i _ _
    simp [dropCol, hc]
  | some j =>
    obtain ⟨hjc, hcj⟩ := colIdx_getElem hc
    refine ⟨by simp [dropCol, hc], ?_, ?_⟩
    · simp only [dropCol, hc, tableWF, List.all_eq_true]
      intro r hr
      rcases List.mem_map.mp hr with ⟨r0, hr0, hre⟩
      have hlen : r0.length = t.cols.length := by
        have := List.all_eq_true.mp hwf _ hr0
        exact beq_iff_eq.mp this
      subst hre
      have hjr : j < r0.length := by omega
      simp [List.length_eraseIdx, hjr, hjc, hlen]
    · intro n i hi hne
      have hjr : j < (t.rows.getD i []).length := by
        rw [tableWF_rowlen hwf hi]
        exact hjc
      have hrg : (dropCol t c).rows.getD i [] = (t.rows.getD i []).eraseIdx j := by
        simp only [dropCol, hc]
        rw [getD_map_of_lt _ _ _ _ hi, getD_of_lt _ _ _ hi]
      have hcols : (dropCol t c).cols = t.cols.eraseIdx j := by
        simp [dropCol, hc]
      rw [hrg, hcols]
      apply rowGet_eraseIdx
      rw [hcj]
      exact hne

theorem dupmk_happy_eq (t mac : Table) (kw : String)
    (hclean : mac.cols.map (fun c => replNbspSpace (pyTrim c)) = mac.cols)
    (hproj : (colIdx mac.cols "Projects").isSome = true)
    (hdupc : (colIdx mac.cols "Dup Market").isSome = true)
    (hfilt : (mac.rows.filter (fun r =>
      strHasSubCI (pyStr (rowGet mac.cols r "Projects")) kw)).isEmpty = false)
    (hstr : (dedupKeep (((mac.rows.filter (fun r =>
        strHasSubCI (pyStr (rowGet mac.cols r "Projects")) kw)).map
        (fun r => rowGet mac.cols r "Dup Market")).filter
        (fun v => v != Val.missing))).any (fun v =>
        match v with
        | .vstr _ => false
        | _ => true) = false)
    (hcols : ["Market", "Competition", "Event"].find?
      (fun c => (colIdx t.cols c).isNone) = none) :
    duplicated_market_check t (some mac) kw = dupOut t (dupCleanOf mac kw) kw := by
  obtain ⟨jp, hjp⟩ := Option.isSome_iff_exists.mp hproj
  obtain ⟨jd, hjd⟩ := Option.isSome_iff_exists.mp hdupc
  unfold duplicated_market_check
  simp only []
  rw [hclean]
  rw [show ["Projects", "Dup Market"].filter (fun c => (colIdx mac.cols c).isNone) = []
    from by simp [List.filter, hjp, hjd]]
  rw [if_neg (by decide)]
  rw [if_neg (by rw [hfilt]; decide)]
  rw [if_neg (by rw [hstr]; decide)]
  rw [hcols]
  rfl

theorem dupT5_cells (t : Table) (hwf : tableWF t = true) (i : Nat) (hi : i < t.rows.length) :
    (dupT5 t).rows.length = t.rows.length ∧ tableWF (dupT5 t) = true ∧
    rowGet (dupT5 t).cols ((dupT5 t).rows.getD i []) "Market_clean" =
      .vstr (cleanCell t i "Market") ∧
    rowGet (dupT5 t).cols ((dupT5 t).rows.getD i []) "Competition_clean" =
      .vstr (cleanCell t i "Competition") ∧
    rowGet (dupT5 t).cols ((dupT5 t).rows.getD i []) "Event_clean" =
      .vstr (cleanCell t i "Event") := by
  have h1len : (dupT1 t).rows.length = t.rows.length :=
    setCol_rows_length _ _ _ (by simp)
  have h1wf : tableWF (dupT1 t) = true := tableWF_setCol hwf (by simp)
  have hi1 : i < (dupT1 t).rows.length := by
    rw [h1len]
    exact hi
  have h2len : (dupT2 t).rows.length = t.rows.length := by
    unfold dupT2
    rw [setCol_rows_length _ _ _ (by simp)]
    exact h1len
  have h2wf : tableWF (dupT2 t) = true := tableWF_setCol h1wf (by simp)
  have hi2 : i < (dupT2 t).rows.length := by
    rw [h2len]
    exact hi
  have h3len : (dupT3 t).rows.length = t.rows.length := by
    unfold dupT3
    rw [setCol_rows_length _ _ _ (by simp)]
    exact h2len
  have h3wf : tableWF (dupT3 t) = true := tableWF_setCol h2wf (by simp)
  have hi3 : i < (dupT3 t).rows.length := by
    rw [h3len]
    exact hi
  have h4len : (dupT4 t).rows.length = t.rows.length := by
    unfold dupT4
    rw [setColConst_rows_length]
    exact h3len
  have h4wf : tableWF (dupT4 t) = true := tableWF_setColConst _ _ h3wf
  have hi4 : i < (dupT4 t).rows.length := by
    rw [h4len]
    exact hi
  have h5len : (dupT5 t).rows.length = t.rows.length := by
    unfold dupT5
    rw [setColConst_rows_length]
    exact h4len
  have h5wf : tableWF (dupT5 t) = true := tableWF_setColConst _ _ h4wf
  have hm1 : rowGet (dupT1 t).cols ((dupT1 t).rows.getD i []) "Market_clean" =
      .vstr (cleanCell t i "Market") := by
    unfold dupT1
    rw [rowGet_setCol_self hwf (by simp) hi, getD_map_of_lt _ _ _ _ hi,
      ← getD_of_lt _ _ _ hi]
    rfl
  have hc1 : rowGet (dupT1 t).cols ((dupT1 t).rows.getD i []) "Competition" =
      rowGet t.cols (t.rows.getD i []) "Competition" := by
    unfold dupT1
    exact rowGet_setCol_ne hwf (by simp) hi (by decide)
  have he1 : rowGet (dupT1 t).cols ((dupT1 t).rows.getD i []) "Event" =
      rowGet t.cols (t.rows.getD i []) "Event" := by
    unfold dupT1
    exact rowGet_setCol_ne hwf (by simp) hi (by decide)
  have hm2 : rowGet (dupT2 t).cols ((dupT2 t).rows.getD i []) "Market_clean" =
      .vstr (cleanCell t i "Market") := by
    unfold dupT2
    rw [rowGet_setCol_ne h1wf (by simp) hi1 (by decide)]
    exact hm1
  have hc2 : rowGet (dupT2 t).cols ((dupT2 t).rows.getD i []) "Competition_clean" =
      .vstr (cleanCell t i "Competition") := by
    unfold dupT2
    rw [rowGet_setCol_self h1wf (by simp) hi1, getD_map_of_lt _ _ _ _ hi1,
      ← getD_of_lt _ _ _ hi1, hc1]
    rfl
  have he2 : rowGet (dupT2 t).cols ((dupT2 t).rows.getD i []) "Event" =
      rowGet t.cols (t.rows.getD i []) "Event" := by
    unfold dupT2
    rw [rowGet_setCol_ne h1wf (by simp) hi1 (by decide)]
    exact he1
  have hm3 : rowGet (dupT3 t).cols ((dupT3 t).rows.getD i []) "Market_clean" =
      .vstr (cleanCell t i "Market") := by
    unfold dupT3
    rw [rowGet_setCol_ne h2wf (by simp) hi2 (by decide)]
    exact hm2
  have hc3 : rowGet (dupT3 t).cols ((dupT3 t).rows.getD i []) "Competition_clean" =
      .vstr (cleanCell t i "Competition") := by
    unfold dupT3
    rw [rowGet_setCol_ne h2wf (by simp) hi2 (by decide)]
    exact hc2
  have he3 : rowGet (dupT3 t).cols ((dupT3 t).rows.getD i []) "Event_clean" =
      .vstr (cleanCell t i "Event") := by
    unfold dupT3
    rw [rowGet_setCol_self h2wf (by simp) hi2, getD_map_of_lt _ _ _ _ hi2,
      ← getD_of_lt _ _ _ hi2, he2]
    rfl
  refine ⟨h5len, h5wf, ?_, ?_, ?_⟩
  · show rowGet (dupT5 t).cols ((dupT5 t).rows.getD i []) "Market_clean" = _
    unfold dupT5 dupT4
    rw [rowGet_setColConst_ne (tableWF_setColConst _ _ h3wf) (by rw [setColConst_rows_length]; exact hi3) (by decide),
      rowGet_setColConst_ne h3wf hi3 (by decide)]
    exact hm3
  · unfold dupT5 dupT4
    rw [rowGet_setColConst_ne (tableWF_setColConst _ _ h3wf) (by rw [setColConst_rows_length]; exact hi3) (by decide),
      rowGet_setColConst_ne h3wf hi3 (by decide)]
    exact hc3
  · unfold dupT5 dupT4
    rw [rowGet_setColConst_ne (tableWF_setColConst _ _ h3wf) (by rw [setColConst_rows_length]; exact hi3) (by decide),
      rowGet_setColConst_ne h3wf hi3 (by decide)]
    exact he3

theorem dupOut_cells (t : Table) (hwf : tableWF t = true) (dupClean : List String)
    (kw : String) (i : Nat) (hi : i < t.rows.length) :
    rowGet (dupOut t dupClean kw).cols ((dupOut t dupClean kw).rows.getD i [])
      "Duplicated Markets Check_OK" =
      .vstr (dupRowRes t dupClean kw ((dupT5 t).rows.getD i [])).1 ∧
    rowGet (dupOut t dupClean kw).cols ((dupOut t dupClean kw).rows.getD i [])
      "Duplicated Markets Remark" =
      .vstr (dupRowRes t dupClean kw ((dupT5 t).rows.getD i [])).2 := by
  obtain ⟨h5len, h5wf, -, -, -⟩ := dupT5_cells t hwf i hi
  have hi5 : i < (dupT5 t).rows.length := by
    rw [h5len]
    exact hi
  have hinner := setCol2_map_out (dupT5 t) "Duplicated Markets Check_OK"
    "Duplicated Markets Remark"
    (fun r => Val.vstr (dupRowRes t dupClean kw r).1)
    (fun r => Val.vstr (dupRowRes t dupClean kw r).2) h5wf i hi5 (by decide)
  unfold dupOut
  set A := setCol (dupT5 t) "Duplicated Markets Check_OK"
    ((dupT5 t).rows.map (fun r => Val.vstr (dupRowRes t dupClean kw r).1)) with hA
  set B := setCol A "Duplicated Markets Remark"
    ((dupT5 t).rows.map (fun r => Val.vstr (dupRowRes t dupClean kw r).2)) with hB
  have hAlen : A.rows.length = (dupT5 t).rows.length := by
    rw [hA]
    exact setCol_rows_length _ _ _ (by simp)
  have hAwf : tableWF A = true := by
    rw [hA]
    exact tableWF_setCol h5wf (by simp)
  have hBlen : B.rows.length = t.rows.length := by
    rw [hB]
    rw [setCol_rows_length _ _ _ (by simp [hAlen])]
    rw [hAlen, h5len]
  have hBwf : tableWF B = true := by
    rw [hB]
    exact tableWF_setCol hAwf (by simp [hAlen])
  have hiB : i < B.rows.length := by
    rw [hBlen]
    exact hi
  have hd1 := dropCol_props B "Market_clean" hBwf
  have hd2 := dropCol_props (dropCol B "Market_clean") "Competition_clean" hd1.2.1
  have hd3 := dropCol_props (dropCol (dropCol B "Market_clean") "Competition_clean")
    "Event_clean" hd2.2.1
  have hj1 : i < (dropCol B "Market_clean").rows.length := by
    rw [hd1.1]
    exact hiB
  have hj2 : i < (dropCol (dropCol B "Market_clean") "Competition_clean").rows.length := by
    rw [hd2.1]
    exact hj1
  constructor
  · rw [hd3.2.2 "Duplicated Markets Check_OK" i hj2 (by decide),
      hd2.2.2 "Duplicated Markets Check_OK" i hj1 (by decide),
      hd1.2.2 "Duplicated Markets Check_OK" i hiB (by decide)]
    exact hinner.1
  · rw [hd3.2.2 "Duplicated Markets Remark" i hj2 (by decide),
      hd2.2.2 "Duplicated Markets Remark" i hj1 (by decide),
      hd1.2.2 "Duplicated Markets Remark" i hiB (by decide)]
    exact hinner.2

/-- C2 (amended): under the happy path (clean macro headers, Projects and
Dup Market present, league rows found, string Dup Market cells, main-table
columns present), the check is a per-row market-membership test, not an
event-set comparison: an in-league row fails iff its normalized market is
in the macro league rows' Dup Market list, with the corresponding remark,
and out-of-league rows are Not Applicable. -/
theorem C2_theorem (t mac : Table) (kw : String) (hwf : tableWF t = true)
    (i : Nat) (hi : i < t.rows.length)
    (hclean : mac.cols.map (fun c => replNbspSpace (pyTrim c)) = mac.cols)
    (hproj : (colIdx mac.cols "Projects").isSome = true)
    (hdupc : (colIdx mac.cols "Dup Market").isSome = true)
    (hfilt : (mac.rows.filter (fun r =>
      strHasSubCI (pyStr (rowGet mac.cols r "Projects")) kw)).isEmpty = false)
    (hstr : (dedupKeep (((mac.rows.filter (fun r =>
        strHasSubCI (pyStr (rowGet mac.cols r "Projects")) kw)).map
        (fun r => rowGet mac.cols r "Dup Market")).filter
        (fun v => v != Val.missing))).any (fun v =>
        match v with
        | .vstr _ => false
        | _ => true) = false)
    (hcols : ["Market", "Competition", "Event"].find?
      (fun c => (colIdx t.cols c).isNone) = none) :
    ((strHasSub (cleanCell t i "Competition") (pyLower kw) = false →
      strHasSub (cleanCell t i "Event") (pyLower kw) = false →
      rowGet (duplicated_market_check t (some mac) kw).cols
        ((duplicated_market_check t (some mac) kw).rows.getD i [])
        "Duplicated Markets Check_OK" = .vstr "Not Applicable" ∧
      rowGet (duplicated_market_check t (some mac) kw).cols
        ((duplicated_market_check t (some mac) kw).rows.getD i [])
        "Duplicated Markets Remark" = .vstr "Different competition/event") ∧
    (strHasSub (cleanCell t i "Competition") (pyLower kw) = true ∨
     strHasSub (cleanCell t i "Event") (pyLower kw) = true →
      ((dupCleanOf mac kw).contains (cleanCell t i "Market") = true →
        rowGet (duplicated_market_check t (some mac) kw).cols
          ((duplicated_market_check t (some mac) kw).rows.getD i [])
          "Duplicated Markets Check_OK" = .vstr "FALSE" ∧
        rowGet (duplicated_market_check t (some mac) kw).cols
          ((duplicated_market_check t (some mac) kw).rows.getD i [])
          "Duplicated Markets Remark" =
          .vstr ("Duplicate market (" ++ cleanCell t i "Market" ++ ") found in Macro")) ∧
      ((dupCleanOf mac kw).contains (cleanCell t i "Market") = false →
        rowGet (duplicated_market_check t (some mac) kw).cols
          ((duplicated_market_check t (some mac) kw).rows.getD i [])
          "Duplicated Markets Check_OK" = .vstr "TRUE" ∧
        rowGet (duplicated_market_check t (some mac) kw).cols
          ((duplicated_market_check t (some mac) kw).rows.getD i [])
          "Duplicated Markets Remark" =
          .vstr ("Valid market (" ++ cleanCell t i "Market" ++
            ") not listed as duplicate")))) := by
  have heq := dupmk_happy_eq t mac kw hclean hproj hdupc hfilt hstr hcols
  have hcells := dupOut_cells t hwf (dupCleanOf mac kw) kw i hi
  obtain ⟨-, -, hM, hC, hE⟩ := dupT5_cells t hwf i hi
  have hrr : dupRowRes t (dupCleanOf mac kw) kw ((dupT5 t).rows.getD i []) =
      (if !(strHasSub (cleanCell t i "Competition") (pyLower kw) ||
            strHasSub (cleanCell t i "Event") (pyLower kw)) then
         ("Not Applicable", "Different competition/event")
       else if (dupCleanOf mac kw).contains (cleanCell t i "Market") then
         ("FALSE", "Duplicate market (" ++ cleanCell t i "Market" ++ ") found in Macro")
       else
         ("TRUE", "Valid market (" ++ cleanCell t i "Market" ++
           ") not listed as duplicate")) := by
    unfold dupRowRes
    rw [hM, hC, hE]
    rfl
  rw [heq, hcells.1, hcells.2, hrr]
  constructor
  · intro hcF heF
    rw [hcF, heF]
    exact ⟨rfl, rfl⟩
  · intro hin
    have hcond : (!(strHasSub (cleanCell t i "Competition") (pyLower kw) ||
        strHasSub (cleanCell t i "Event") (pyLower kw))) = false := by
      rcases hin with h | h <;> simp [h]
    rw [hcond]
    constructor
    · intro hdup
      rw [hdup]
      exact ⟨rfl, rfl⟩
    · intro hdup
      rw [hdup]
      exact ⟨rfl, rfl⟩

/-- C2 counterexample: origin market Portugal airs only E1 on channel C1
and the duplicate France also airs E1, so the spec's event-set-subset rule
passes; yet the code marks the Portugal row FALSE simply because Portugal
appears in the macro Dup Market list — the check never compares events. -/
theorem C2_counterexample :
    specRulePasses (Table.mk ["Market", "Competition", "Event", "TV-Channel"]
      [[.vstr "Portugal", .vstr "F24 Spain", .vstr "E1", .vstr "C1"],
       [.vstr "France", .vstr "F24 Spain", .vstr "E1", .vstr "C1"]])
      "F24 Spain" (MacroRule.mk "F24 Spain" "Portugal" "C1" "France" "C1") = true ∧
    rowGet (duplicated_market_check
        (Table.mk ["Market", "Competition", "Event", "TV-Channel"]
          [[.vstr "Portugal", .vstr "F24 Spain", .vstr "E1", .vstr "C1"],
           [.vstr "France", .vstr "F24 Spain", .vstr "E1", .vstr "C1"]])
        (some (Table.mk ["Projects", "Dup Market"]
          [[.vstr "F24 Spain", .vstr "Portugal"]])) "F24 Spain").cols
      ((duplicated_market_check
        (Table.mk ["Market", "Competition", "Event", "TV-Channel"]
          [[.vstr "Portugal", .vstr "F24 Spain", .vstr "E1", .vstr "C1"],
           [.vstr "France", .vstr "F24 Spain", .vstr "E1", .vstr "C1"]])
        (some (Table.mk ["Projects", "Dup Market"]
          [[.vstr "F24 Spain", .vstr "Portugal"]])) "F24 Spain").rows.getD 0 [])
      "Duplicated Markets Check_OK" = .vstr "FALSE" ∧
    rowGet (duplicated_market_check
        (Table.mk ["Market", "Competition", "Event", "TV-Channel"]
          [[.vstr "Portugal", .vstr "F24 Spain", .vstr "E1", .vstr "C1"],
           [.vstr "France", .vstr "F24 Spain", .vstr "E1", .vstr "C1"]])
        (some (Table.mk ["Projects", "Dup Market"]
          [[.vstr "F24 Spain", .vstr "Portugal"]])) "F24 Spain").cols
      ((duplicated_market_check
        (Table.mk ["Market", "Competition", "Event", "TV-Channel"]
          [[.vstr "Portugal", .vstr "F24 Spain", .vstr "E1", .vstr "C1"],
           [.vstr "France", .vstr "F24 Spain", .vstr "E1", .vstr "C1"]])
        (some (Table.mk ["Projects", "Dup Market"]
          [[.vstr "F24 Spain", .vstr "Portugal"]])) "F24 Spain").rows.getD 0 [])
      "Duplicated Markets Remark" = .vstr "Duplicate market (portugal) found in Macro" := by
  decide

/-- C2 witness: the amended theorem applied to the France row, which is
in-league and not in the Dup Market list, yielding TRUE. -/
theorem C2_witness :
    rowGet (duplicated_market_check
        (Table.mk ["Market", "Competition", "Event", "TV-Channel"]
          [[.vstr "Portugal", .vstr "F24 Spain", .vstr "E1", .vstr "C1"],
           [.vstr "France", .vstr "F24 Spain", .vstr "E1", .vstr "C1"]])
        (some (Table.mk ["Projects", "Dup Market"]
          [[.vstr "F24 Spain", .vstr "Portugal"]])) "F24 Spain").cols
      ((duplicated_market_check
        (Table.mk ["Market", "Competition", "Event", "TV-Channel"]
          [[.vstr "Portugal", .vstr "F24 Spain", .vstr "E1", .vstr "C1"],
           [.vstr "France", .vstr "F24 Spain", .vstr "E1", .vstr "C1"]])
        (some (Table.mk ["Projects", "Dup Market"]
          [[.vstr "F24 Spain", .vstr "Portugal"]])) "F24 Spain").rows.getD 1 [])
      "Duplicated Markets Check_OK" = .vstr "TRUE" := by
  have h := C2_theorem
    (Table.mk ["Market", "Competition", "Event", "TV-Channel"]
      [[.vstr "Portugal", .vstr "F24 Spain", .vstr "E1", .vstr "C1"],
       [.vstr "France", .vstr "F24 Spain", .vstr "E1", .vstr "C1"]])
    (Table.mk ["Projects", "Dup Market"] [[.vstr "F24 Spain", .vstr "Portugal"]])
    "F24 Spain" (by decide) 1 (by decide) (by decide) (by decide) (by decide)
    (by decide) (by decide) (by decide)
  exact ((h.2 (Or.inl (by decide))).2 (by decide)).1

set_option maxHeartbeats 1000000000 in
/-- C8 (amended): a second run of the full sequence does not crash and
overwrites rather than accumulates (the column list is unchanged), but it
is NOT idempotent: the first run creates the audience columns the
completeness check had reported missing, so the second run's
Completeness_Remark loses its "(columns not found)" qualifier and the
outputs differ. -/
theorem C8_theorem (v : Val)
    (hv : v ∈ [Val.vstr "1", Val.vstr "2", Val.vnum 3, Val.missing]) :
    (runQC (Date.mk 2024 1 1) (Date.mk 2024 1 31) none none none
        (runQC (Date.mk 2024 1 1) (Date.mk 2024 1 31) none none none (c8Table v))).cols =
      (runQC (Date.mk 2024 1 1) (Date.mk 2024 1 31) none none none (c8Table v)).cols ∧
    rowGet (runQC (Date.mk 2024 1 1) (Date.mk 2024 1 31) none none none
        (c8Table v)).cols
      ((runQC (Date.mk 2024 1 1) (Date.mk 2024 1 31) none none none
        (c8Table v)).rows.getD 0 []) "Completeness_Remark" =
      .vstr (if v == Val.missing then
          "Match Day; Audience (Estimates/Metered) (columns not found)"
        else "Audience (Estimates/Metered) (columns not found)") ∧
    rowGet (runQC (Date.mk 2024 1 1) (Date.mk 2024 1 31) none none none
        (runQC (Date.mk 2024 1 1) (Date.mk 2024 1 31) none none none (c8Table v))).cols
      ((runQC (Date.mk 2024 1 1) (Date.mk 2024 1 31) none none none
        (runQC (Date.mk 2024 1 1) (Date.mk 2024 1 31) none none none
          (c8Table v))).rows.getD 0 []) "Completeness_Remark" =
      .vstr (if v == Val.missing then "Match Day; Audience (Estimates/Metered)"
        else "Audience (Estimates/Metered)") ∧
    runQC (Date.mk 2024 1 1) (Date.mk 2024 1 31) none none none
        (runQC (Date.mk 2024 1 1) (Date.mk 2024 1 31) none none none (c8Table v)) ≠
      runQC (Date.mk 2024 1 1) (Date.mk 2024 1 31) none none none (c8Table v) := by
  simp only [List.mem_cons, List.not_mem_nil, or_false] at hv
  rcases hv with h | h | h | h
  · subst h
    have h1 : rowGet (runQC (Date.mk 2024 1 1) (Date.mk 2024 1 31) none none none
          (c8Table (Val.vstr "1"))).cols
        ((runQC (Date.mk 2024 1 1) (Date.mk 2024 1 31) none none none
          (c8Table (Val.vstr "1"))).rows.getD 0 []) "Completeness_Remark" =
        .vstr "Audience (Estimates/Metered) (columns not found)" := by decide
    have h2 : rowGet (runQC (Date.mk 2024 1 1) (Date.mk 2024 1 31) none none none
          (runQC (Date.mk 2024 1 1) (Date.mk 2024 1 31) none none none
            (c8Table (Val.vstr "1")))).cols
        ((runQC (Date.mk 2024 1 1) (Date.mk 2024 1 31) none none none
          (runQC (Date.mk 2024 1 1) (Date.mk 2024 1 31) none none none
            (c8Table (Val.vstr "1")))).rows.getD 0 []) "Completeness_Remark" =
        .vstr "Audience (Estimates/Metered)" := by decide
    refine ⟨by decide, h1, h2, ?_⟩
    intro heq
    have hc := congrArg
      (fun T : Table => rowGet T.cols (T.rows.getD 0 []) "Completeness_Remark") heq
    simp only [] at hc
    rw [h1, h2] at hc
    exact absurd (Val.vstr.inj hc) (by decide)
  · subst h
    have h1 : rowGet (runQC (Date.mk 2024 1 1) (Date.mk 2024 1 31) none none none
          (c8Table (Val.vstr "2"))).cols
        ((runQC (Date.mk 2024 1 1) (Date.mk 2024 1 31) none none none
          (c8Table (Val.vstr "2"))).rows.getD 0 []) "Completeness_Remark" =
        .vstr "Audience (Estimates/Metered) (columns not found)" := by decide
    have h2 : rowGet (runQC (Date.mk 2024 1 1) (Date.mk 2024 1 31) none none none
          (runQC (Date.mk 2024 1 1) (Date.mk 2024 1 31) none none none
            (c8Table (Val.vstr "2")))).cols
        ((runQC (Date.mk 2024 1 1) (Date.mk 2024 1 31) none none none
          (runQC (Date.mk 2024 1 1) (Date.mk 2024 1 31) none none none
            (c8Table (Val.vstr "2")))).rows.getD 0 []) "Completeness_Remark" =
        .vstr "Audience (Estimates/Metered)" := by decide
    refine ⟨by decide, h1, h2, ?_⟩
    intro heq
    have hc := congrArg
      (fun T : Table => rowGet T.cols (T.rows.getD 0 []) "Completeness_Remark") heq
    simp only [] at hc
    rw [h1, h2] at hc
    exact absurd (Val.vstr.inj hc) (by decide)
  · subst h
    have h1 : rowGet (runQC (Date.mk 2024 1 1) (Date.mk 2024 1 31) none none none
          (c8Table (Val.vnum 3))).cols
        ((runQC (Date.mk 2024 1 1) (Date.mk 2024 1 31) none none none
          (c8Table (Val.vnum 3))).rows.getD 0 []) "Completeness_Remark" =
        .vstr "Audience (Estimates/Metered) (columns not found)" := by decide
    have h2 : rowGet (runQC (Date.mk 2024 1 1) (Date.mk 2024 1 31) none none none
          (runQC (Date.mk 2024 1 1) (Date.mk 2024 1 31) none none none
            (c8Table (Val.vnum 3)))).cols
        ((runQC (Date.mk 2024 1 1) (Date.mk 2024 1 31) none none none
          (runQC (Date.mk 2024 1 1) (Date.mk 2024 1 31) none none none
            (c8Table (Val.vnum 3)))).rows.getD 0 []) "Completeness_Remark" =
        .vstr "Audience (Estimates/Metered)" := by decide
    refine ⟨by decide, h1, h2, ?_⟩
    intro heq
    have hc := congrArg
      (fun T : Table => rowGet T.cols (T.rows.getD 0 []) "Completeness_Remark") heq
    simp only [] at hc
    rw [h1, h2] at hc
    exact absurd (Val.vstr.inj hc) (by decide)
  · subst h
    have h1 : rowGet (runQC (Date.mk 2024 1 1) (Date.mk 2024 1 31) none none none
          (c8Table Val.missing)).cols
        ((runQC (Date.mk 2024 1 1) (Date.mk 2024 1 31) none none none
          (c8Table Val.missing)).rows.getD 0 []) "Completeness_Remark" =
        .vstr "Match Day; Audience (Estimates/Metered) (columns not found)" := by decide
    have h2 : rowGet (runQC (Date.mk 2024 1 1) (Date.mk 2024 1 31) none none none
          (runQC (Date.mk 2024 1 1) (Date.mk 2024 1 31) none none none
            (c8Table Val.missing))).cols
        ((runQC (Date.mk 2024 1 1) (Date.mk 2024 1 31) none none none
          (runQC (Date.mk 2024 1 1) (Date.mk 2024 1 31) none none none
            (c8Table Val.missing))).rows.getD 0 []) "Completeness_Remark" =
        .vstr "Match Day; Audience (Estimates/Metered)" := by decide
    refine ⟨by decide, h1, h2, ?_⟩
    intro heq
    have hc := congrArg
      (fun T : Table => rowGet T.cols (T.rows.getD 0 []) "Completeness_Remark") heq
    simp only [] at hc
    rw [h1, h2] at hc
    exact absurd (Val.vstr.inj hc) (by decide)

set_option maxHeartbeats 1000000000 in
/-- C8 counterexample: on a concrete five-column table the full sequence is
not idempotent — the second run's output differs from the first (its
Completeness_Remark drops "(columns not found)"), refuting the claimed
identity of the two runs. -/
theorem C8_counterexample :
    runQC (Date.mk 2024 1 1) (Date.mk 2024 1 31) none none none
        (runQC (Date.mk 2024 1 1) (Date.mk 2024 1 31) none none none
          (c8Table (.vstr "7"))) ≠
      runQC (Date.mk 2024 1 1) (Date.mk 2024 1 31) none none none
        (c8Table (.vstr "7")) := by
  have h1 : rowGet (runQC (Date.mk 2024 1 1) (Date.mk 2024 1 31) none none none
        (c8Table (.vstr "7"))).cols
      ((runQC (Date.mk 2024 1 1) (Date.mk 2024 1 31) none none none
        (c8Table (.vstr "7"))).rows.getD 0 []) "Completeness_Remark" =
      .vstr "Audience (Estimates/Metered) (columns not found)" := by decide
  have h2 : rowGet (runQC (Date.mk 2024 1 1) (Date.mk 2024 1 31) none none none
        (runQC (Date.mk 2024 1 1) (Date.mk 2024 1 31) none none none
          (c8Table (.vstr "7")))).cols
      ((runQC (Date.mk 2024 1 1) (Date.mk 2024 1 31) none none none
        (runQC (Date.mk 2024 1 1) (Date.mk 2024 1 31) none none none
          (c8Table (.vstr "7")))).rows.getD 0 []) "Completeness_Remark" =
      .vstr "Audience (Estimates/Metered)" := by decide
  intro heq
  have hc := congrArg
    (fun T : Table => rowGet T.cols (T.rows.getD 0 []) "Completeness_Remark") heq
  simp only [] at hc
  rw [h1, h2] at hc
  exact absurd (Val.vstr.inj hc) (by decide)

/-- C8 witness: the amended theorem at the Matchday value "2": the second
run differs from the first. -/
theorem C8_witness :
    runQC (Date.mk 2024 1 1) (Date.mk 2024 1 31) none none none
        (runQC (Date.mk 2024 1 1) (Date.mk 2024 1 31) none none none
          (c8Table (.vstr "2"))) ≠
      runQC (Date.mk 2024 1 1) (Date.mk 2024 1 31) none none none
        (c8Table (.vstr "2")) :=
  (C8_theorem (.vstr "2") (by decide)).2.2.2
